import Mathlib

/-!
Shallow embedding of the KumoCrawler scraping engine (`scraper_logic.py`).

The browser engine is external: each Playwright interaction is modelled by the
observable data it returns to the Python code (element handles become records of
the attribute/text values the code reads; waits become booleans saying whether
the awaited condition arrived within its bounded timeout; exceptions become
`Except`/flags).  The functions below mirror the control flow of
`perform_login`, `login_and_enumerate_task`, `scrape_messages_task` and
`close_browser` statement by statement.  Progress events (`log_update` calls)
are recorded as a list of event kinds in emission order.
-/

/-- The `type` field of the structured updates `log_update` puts on the queue
(§3 ProgressEvent taxonomy of the design). -/
inductive EventKind where
  | info | dev | warn | error | success | channels | scrape_result
  | all_done | download_ready | end_stream
deriving DecidableEq, Repr

/-! ### Timestamps

`scrape_messages_task` parses the `title` attribute of the timestamp element
with `datetime.strptime` against two formats, in order:
`'%b %d, %Y %I:%M %p'` (e.g. "May 21, 2025 10:47 PM") and then
`'%I:%M %p, %B %d, %Y'` (e.g. "10:00 PM, August 23, 2023").
We model `datetime` values as calendar records; chronological comparison is
lexicographic on (year, month, day, hour, minute), realised by `key`. -/

/-! ### String helpers

Kernel-reducible (structurally recursive) models of the Python string
operations the source uses, so that concrete runs of the embedding can be
settled by `decide`. -/

/-- Is `p` a prefix of `l`? -/
def isPrefixList : List Char → List Char → Bool
  | [], _ => true
  | _ :: _, [] => false
  | p :: ps, c :: cs => p == c && isPrefixList ps cs

/-- `s.startswith(p)` (Python). -/
def strStarts (s p : String) : Bool := isPrefixList p.toList s.toList

/-- Drop the prefix `p` from `l`, if present. -/
def dropPrefixList : List Char → List Char → Option (List Char)
  | l, [] => some l
  | [], _ :: _ => none
  | c :: cs, p :: ps => if c == p then dropPrefixList cs ps else none

/-- Fuel-driven splitter: splits `l` at each occurrence of the non-empty
separator `sep` (the behaviour of Python `str.split(sep)` on the separators
this file uses). -/
def splitAux (sep : List Char) : Nat → List Char → List Char → List (List Char)
  | _, [], acc => [acc.reverse]
  | 0, l, acc => [acc.reverse ++ l]
  | fuel + 1, c :: cs, acc =>
    match dropPrefixList (c :: cs) sep with
    | some rest => acc.reverse :: splitAux sep fuel rest []
    | none => splitAux sep fuel cs (c :: acc)

/-- `s.split(sep)` for a non-empty separator (Python). -/
def splitStr (sep s : String) : List String :=
  (splitAux sep.toList (s.toList.length + 1) s.toList []).map List.asString

def isSpaceChar (c : Char) : Bool := c == ' ' || c == '\t' || c == '\n' || c == '\r'

/-- `s.strip()` (Python): remove leading and trailing whitespace. -/
def pyStrip (s : String) : String :=
  ((s.toList.dropWhile isSpaceChar).reverse.dropWhile isSpaceChar).reverse.asString

/-- `s.rstrip(c)` (Python) for a single character. -/
def pyRStrip (c : Char) (s : String) : String :=
  (s.toList.reverse.dropWhile (· == c)).reverse.asString

/-- `" ".join(l)` (Python). -/
def joinSep (sep : String) : List String → String
  | [] => ""
  | [x] => x
  | x :: xs => x ++ sep ++ joinSep sep xs

structure DateTime where
  year : Nat
  month : Nat
  day : Nat
  hour : Nat
  minute : Nat
deriving DecidableEq, Repr

/-- Linearisation of a calendar datetime; for field values in calendar range it
agrees with chronological order, which is what `datetime.__lt__` compares. -/
def DateTime.key (d : DateTime) : Nat :=
  (((d.year * 13 + d.month) * 32 + d.day) * 24 + d.hour) * 60 + d.minute

def strLower (s : String) : String := String.mk (s.toList.map Char.toLower)

/-- Month abbreviations recognised by `%b` (strptime compares lowercased). -/
def monthAbbrevs : List String :=
  ["jan", "feb", "mar", "apr", "may", "jun", "jul", "aug", "sep", "oct", "nov", "dec"]

/-- Full month names recognised by `%B` (strptime compares lowercased). -/
def monthNames : List String :=
  ["january", "february", "march", "april", "may", "june", "july", "august",
   "september", "october", "november", "december"]

def findIdx1 : List String → String → Option Nat
  | [], _ => none
  | x :: xs, t => if x = t then some 1 else (findIdx1 xs t).map (· + 1)

def monthOfTok (tbl : List String) (tok : String) : Option Nat :=
  findIdx1 tbl (strLower tok)

def digitsToNat (l : List Char) : Nat :=
  l.foldl (fun a c => a * 10 + (c.toNat - 48)) 0

/-- Parse an all-digit token with a length range and a value range, as the
strptime field regexes do (`%d`: 1-2 digits 1..31, `%I`: 1-2 digits 1..12,
`%M`: 1-2 digits 0..59, `%Y`: exactly 4 digits; `datetime` then requires
`1 <= year`). -/
def parseNatLen (s : String) (minLen maxLen lo hi : Nat) : Option Nat :=
  let l := s.toList
  if decide (minLen ≤ l.length) && decide (l.length ≤ maxLen) && l.all Char.isDigit then
    let n := digitsToNat l
    if decide (lo ≤ n) && decide (n ≤ hi) then some n else none
  else none

/-- `%p`: AM/PM marker, case-insensitive; `true` means PM. -/
def parseAmPm (s : String) : Option Bool :=
  match strLower s with
  | "am" => some false
  | "pm" => some true
  | _ => none

def isLeap (y : Nat) : Bool := (y % 4 == 0 && y % 100 != 0) || (y % 400 == 0)

def daysInMonth (y m : Nat) : Nat :=
  if m = 2 then (if isLeap y then 29 else 28)
  else if m = 4 ∨ m = 6 ∨ m = 9 ∨ m = 11 then 30 else 31

/-- `datetime(...)` rejects a day that does not exist in the given month. -/
def validDay (y m d : Nat) : Bool := decide (1 ≤ d) && decide (d ≤ daysInMonth y m)

/-- `%I` + `%p` to a 24-hour value, as strptime does (12 AM is 0, 12 PM is 12). -/
def to24 (h12 : Nat) (pm : Bool) : Nat :=
  if pm then (if h12 = 12 then 12 else h12 + 12)
  else (if h12 = 12 then 0 else h12)

/-- `datetime.strptime(s, '%b %d, %Y %I:%M %p')`, e.g. "May 21, 2025 10:47 PM". -/
def parseFmt1 (s : String) : Option DateTime :=
  match splitStr ", " s with
  | [p1, p2] =>
    match splitStr " " p1 with
    | [monTok, dayTok] =>
      match splitStr " " p2 with
      | [yearTok, timeTok, apTok] =>
        match splitStr ":" timeTok with
        | [hTok, mTok] =>
          match monthOfTok monthAbbrevs monTok, parseNatLen dayTok 1 2 1 31,
                parseNatLen yearTok 4 4 1 9999, parseNatLen hTok 1 2 1 12,
                parseNatLen mTok 1 2 0 59, parseAmPm apTok with
          | some mon, some day, some year, some h12, some minute, some pm =>
            if validDay year mon day then
              some ⟨year, mon, day, to24 h12 pm, minute⟩
            else none
          | _, _, _, _, _, _ => none
        | _ => none
      | _ => none
    | _ => none
  | _ => none

/-- `datetime.strptime(s, '%I:%M %p, %B %d, %Y')`, e.g. "10:00 PM, August 23, 2023". -/
def parseFmt2 (s : String) : Option DateTime :=
  match splitStr ", " s with
  | [p1, p2, p3] =>
    match splitStr " " p1 with
    | [timeTok, apTok] =>
      match splitStr " " p2 with
      | [monTok, dayTok] =>
        match splitStr ":" timeTok with
        | [hTok, mTok] =>
          match monthOfTok monthNames monTok, parseNatLen dayTok 1 2 1 31,
                parseNatLen p3 4 4 1 9999, parseNatLen hTok 1 2 1 12,
                parseNatLen mTok 1 2 0 59, parseAmPm apTok with
          | some mon, some day, some year, some h12, some minute, some pm =>
            if validDay year mon day then
              some ⟨year, mon, day, to24 h12 pm, minute⟩
            else none
          | _, _, _, _, _, _ => none
        | _ => none
      | _ => none
    | _ => none
  | _ => none

/-- The nested `try strptime ... except ValueError: try strptime ...` of
`scrape_messages_task` (lines 299-305): first format that matches wins. -/
def parse_timestamp (s : String) : Option DateTime :=
  match parseFmt1 s with
  | some t => some t
  | none => parseFmt2 s

/-- First hit in an ordered list of formats (the shape the spec describes:
"a small ordered list of known formats, first match wins"). -/
def firstMatch : List (String → Option DateTime) → String → Option DateTime
  | [], _ => none
  | f :: r, s =>
    match f s with
    | some t => some t
    | none => firstMatch r s

/-- The ordered format list used by the scraper. -/
def timestamp_formats : List (String → Option DateTime) := [parseFmt1, parseFmt2]

/-! ### Message extraction and the scroll-and-extract loop

One rendered message element (`div.rcx-message[role="listitem"]`) is modelled
by the values the extraction code reads from it.  `sender` is the inner text of
the sender sub-element when that sub-element exists; `body` is the text the
body-extraction block produces when the body sub-element exists; `tsEl` is
`some attr` when the timestamp sub-element exists, where `attr` is its `title`
attribute (`none` when the attribute is absent).  `extractFails` marks an
element whose per-message detail extraction (the sub-element queries inside the
`try` of lines 272-318) raises; the exception is caught, a `warn` is logged,
and the loop moves on to the next element. -/
structure MsgElement where
  id : Option String
  sender : Option String
  body : Option String
  tsEl : Option (Option String)
  extractFails : Bool
deriving DecidableEq, Repr

/-- One entry of `scraped_data` (the dict appended at lines 307-310). -/
structure Message where
  id : String
  sender : String
  text : String
  timestamp_raw : Option String
  timestamp_dt : Option DateTime
deriving DecidableEq, Repr

/-- The scrape-loop state: `seen_message_ids`, `scraped_data`,
`consecutive_no_new_messages_passes` and `scroll_attempts_at_top`. -/
structure ScrapeState where
  seen : List String
  messages : List Message
  emptyPasses : Nat
  scrollAttempts : Nat
deriving DecidableEq, Repr

def initialScrapeState : ScrapeState := ⟨[], [], 0, 0⟩

/-- One pass of the loop sees one DOM snapshot: the rendered message elements
(in render order, the order `query_selector_all` returns) and, for the
empty-snapshot branch, the scroll positions the recovery block reads before and
after it resets `scrollTop` to 0. -/
structure Pass where
  elements : List MsgElement
  scrollBefore : Nat
  scrollAfter : Nat
deriving DecidableEq, Repr

/-- Extraction of one message's fields (lines 273-310), given its id.  The
events are the `log_update` calls it performs (a `dev` when the timestamp
string parses with neither known format). -/
def extractMessage (e : MsgElement) (i : String) : Message × List EventKind :=
  let sender := match e.sender with
    | some s => pyStrip s
    | none => "Unknown Sender"
  let text := match e.body with
    | some t => t
    | none => ""
  let tsRaw : Option String := match e.tsEl with
    | none => some ""
    | some attr => attr
  let parsed : Option DateTime × List EventKind := match tsRaw with
    | some s =>
      if s = "" then (none, [])
      else
        match parse_timestamp s with
        | some t => (some t, [])
        | none => (none, [.dev])
    | none => (none, [])
  (⟨i, sender, text, tsRaw, parsed.1⟩, parsed.2)

/-- Result of the per-element `for` loop over one snapshot. -/
structure ElemResult where
  st : ScrapeState
  found : Nat
  stop : Bool
  events : List EventKind
deriving DecidableEq, Repr

/-- The depth check at line 313: `depth == "3months" and msg_time and
msg_time < three_months_ago`, evaluated on the message just appended. -/
def stopAfter (c : DateTime) (d3 : Bool) (m : Message) : Bool :=
  d3 && (match m.timestamp_dt with
    | some t => decide (t.key < c.key)
    | none => false)

/-- The `for msg_element in reversed(message_elements)` body (lines 266-318);
the caller passes the element list already reversed.  `c` is
`three_months_ago`, `d3` is `depth == "3months"`, `found` is
`messages_found_this_pass`, and `stop = true` means `keep_scrolling` was set
to `False` by the depth check and the loop `break`s. -/
def processElements (c : DateTime) (d3 : Bool) :
    List MsgElement → ScrapeState → Nat → ElemResult
  | [], st, found => ⟨st, found, false, []⟩
  | e :: rest, st, found =>
    match e.id with
    | none => processElements c d3 rest st found
    | some i =>
      if i = "" then processElements c d3 rest st found
      else if i ∈ st.seen then processElements c d3 rest st found
      else
        let stA := { st with seen := i :: st.seen }
        if e.extractFails then
          let r := processElements c d3 rest stA found
          ⟨r.st, r.found, r.stop, .warn :: r.events⟩
        else
          let me := extractMessage e i
          let stB := { stA with messages := stA.messages ++ [me.1] }
          if stopAfter c d3 me.1 then ⟨stB, found + 1, true, me.2 ++ [.info]⟩
          else
            let r := processElements c d3 rest stB (found + 1)
            ⟨r.st, r.found, r.stop, me.2 ++ r.events⟩

/-- Result of the `while keep_scrolling` loop.  `terminated = true` means the
loop exited through one of its own termination conditions; `false` means the
supplied snapshot sequence ran out first (the loop would keep observing the
page). -/
structure LoopResult where
  final : ScrapeState
  terminated : Bool
  events : List EventKind
deriving DecidableEq, Repr

/-- The `while keep_scrolling` loop of `scrape_messages_task` (lines 228-367),
one snapshot per pass.  An empty snapshot is a pass on which
`wait_for_selector(message_item_li, "attached")` timed out and
`query_selector_all` then found nothing; a non-empty snapshot is a pass on
which the wait succeeded.  The scroll step at the bottom of the loop is
modelled as succeeding (its failure modes only stop the loop early). -/
def scrapeLoop (c : DateTime) (d3 : Bool) : List Pass → ScrapeState → LoopResult
  | [], st => ⟨st, false, []⟩
  | p :: rest, st =>
    if p.elements.isEmpty then
      -- wait timed out: warn, then the scroll-probe recovery block (236-248)
      if (p.scrollAfter == p.scrollBefore) && (p.scrollBefore == 0) then
        let sa := st.scrollAttempts + 1
        if sa > 2 then
          ⟨{ st with scrollAttempts := sa }, true, [.dev, .warn, .info]⟩
        else
          -- empty query result (252-262): count the empty pass
          let ep := st.emptyPasses + 1
          let st2 := { st with scrollAttempts := sa, emptyPasses := ep }
          if ep > 3 then ⟨st2, true, [.dev, .warn, .warn, .warn]⟩
          else
            let r := scrapeLoop c d3 rest st2
            ⟨r.final, r.terminated, [.dev, .warn, .warn] ++ r.events⟩
      else
        let ep := st.emptyPasses + 1
        let st2 := { st with scrollAttempts := 0, emptyPasses := ep }
        if ep > 3 then ⟨st2, true, [.dev, .warn, .warn, .warn]⟩
        else
          let r := scrapeLoop c d3 rest st2
          ⟨r.final, r.terminated, [.dev, .warn, .warn] ++ r.events⟩
    else
      -- elements rendered: reset the empty-pass counter (264), extract
      let st1 := { st with emptyPasses := 0 }
      let pr := processElements c d3 p.elements.reverse st1 0
      if pr.stop then ⟨pr.st, true, .dev :: pr.events⟩
      else if pr.found == 0 then
        -- no new messages despite rendered elements (322-327)
        let sa := pr.st.scrollAttempts + 1
        if sa ≥ 3 then
          ⟨{ pr.st with scrollAttempts := sa }, true, (.dev :: pr.events) ++ [.info, .info]⟩
        else
          let r := scrapeLoop c d3 rest { pr.st with scrollAttempts := sa }
          ⟨r.final, r.terminated, (.dev :: pr.events) ++ [.info, .dev] ++ r.events⟩
      else
        let r := scrapeLoop c d3 rest { pr.st with scrollAttempts := 0 }
        ⟨r.final, r.terminated, (.dev :: pr.events) ++ [.dev] ++ r.events⟩

/-! ### Browser session lifecycle (`close_browser`, lines 61-71) -/

/-- The module-level mutable engine state: `playwright_instance` is modelled by
whether it is non-`None`; `browser` by `none` (the handle is `None`) or
`some connected` (a handle whose `is_connected()` returns `connected`). -/
structure EngineState where
  playwright : Bool
  browser : Option Bool
deriving DecidableEq, Repr

/-- `close_browser()`: closes and clears the browser handle only when it is
present and connected, then stops and clears the Playwright instance. -/
def close_browser (s : EngineState) : EngineState :=
  let b := match s.browser with
    | some true => none
    | other => other
  ⟨false, b⟩

/-! ### Login (`perform_login`, lines 100-140) -/

/-- The observable login-page behaviour: whether each awaited browser call
succeeds within its bounded timeout, and what the outcome race sees.
`raceVisible` is whether the combined wait for
`login_success_indicator, login_error_indicator` finds either visible within
45s; `errorEl` is the result of `query_selector(login_error_indicator)`
afterwards (`some texts` = an attached error element whose
`all_text_contents()` is `texts`); `successVisibleAgain` is whether the
confirming 15s wait for the success indicator succeeds. -/
structure LoginPage where
  navOk : Bool
  fillUserOk : Bool
  fillPassOk : Bool
  clickOk : Bool
  raceVisible : Bool
  errorEl : Option (List String)
  successVisibleAgain : Bool
deriving DecidableEq, Repr

/-- The distinguishable failures `perform_login` raises. -/
inductive LoginFailure where
  | navigationError
  | formTimeout
  | loginFailed (diag : String)
  | loginTimedOut
deriving DecidableEq, Repr

/-- `" ".join(error_text_list).strip() if error_text_list else fallback`
(line 132). -/
def joinDiag (l : List String) : String :=
  if l.isEmpty then "Login Error element found, but could not get text."
  else pyStrip (joinSep " " l)

/-- The message of the `PlaywrightError` raised at line 133. -/
def loginFailedMsg (l : List String) : String :=
  "Login Failed: " ++ joinDiag l ++ ". Check credentials or error indicator selector."

/-- `perform_login` as a function of the page behaviour: the events it logs,
and either success or the failure it raises. -/
def perform_login (p : LoginPage) : List EventKind × Except LoginFailure Unit :=
  if !p.navOk then ([.info, .error], .error .navigationError)
  else if !p.fillUserOk then ([.info, .dev], .error .formTimeout)
  else if !p.fillPassOk then ([.info, .dev, .dev], .error .formTimeout)
  else if !p.clickOk then ([.info, .dev, .dev, .info], .error .formTimeout)
  else
    let pre : List EventKind := [.info, .dev, .dev, .info, .dev]
    if !p.raceVisible then (pre, .error .loginTimedOut)
    else
      match p.errorEl with
      | some l => (pre, .error (.loginFailed (loginFailedMsg l)))
      | none =>
        if p.successVisibleAgain then (pre ++ [.success], .ok ())
        else (pre, .error .loginTimedOut)

/-! ### Channel enumeration (`login_and_enumerate_task`, lines 142-200) -/

/-- One `a.rcx-sidebar-item` element: `nameEl` is the inner text of the
`.rcx-sidebar-item__title` sub-element when that sub-element exists, `href`
the item's `href` attribute. -/
structure ChannelItem where
  nameEl : Option String
  href : Option String
deriving DecidableEq, Repr

structure Channel where
  name : String
  id : String
deriving DecidableEq, Repr

/-- `base_url` (lines 158-159): the `^(https://[^/]+)` match on `page.url`,
falling back to `url.rstrip('/')`. -/
def baseUrlOf (pageUrl url : String) : String :=
  let host := (pageUrl.toList.drop 8).takeWhile (fun c => !(c == '/'))
  if strStarts pageUrl "https://" && !host.isEmpty then
    "https://" ++ host.asString
  else pyRStrip '/' url

/-- `href if href.startswith('http') else base_url + (...)` (line 168). -/
def resolveRef (base href : String) : String :=
  if strStarts href "http" then href
  else base ++ (if strStarts href "/" then href else "/" ++ href)

/-- The `for el in channel_elements` loop (lines 161-174): the channels
collected into `channels_data` and the events logged (`dev` per kept item,
`warn` per skipped item). -/
def enumerate_channels (base : String) : List ChannelItem → List Channel × List EventKind
  | [] => ([], [])
  | it :: rest =>
    let r := enumerate_channels base rest
    match it.nameEl with
    | none => (r.1, .warn :: r.2)
    | some s =>
      let name := pyStrip s
      match it.href with
      | none => (r.1, .warn :: r.2)
      | some h =>
        if name = "" ∨ h = "" then (r.1, .warn :: r.2)
        else (⟨name, resolveRef base h⟩ :: r.1, .dev :: r.2)

/-- What the spec says `enumerate` keeps: an item with a non-empty display
name and a navigation reference, mapped to a channel whose target is the
reference resolved against the page origin.  Stated separately from the loop
above so the loop can be proved to refine it. -/
def specKeepItem (base : String) (it : ChannelItem) : Option Channel :=
  match it.nameEl, it.href with
  | some s, some h =>
    if pyStrip s ≠ "" ∧ h ≠ "" then some ⟨pyStrip s, resolveRef base h⟩ else none
  | _, _ => none

/-- Events of the guaranteed-cleanup `finally` block of either task (lines
195-200 and 382-387): `page.context.close()` is attempted whenever a page was
created; when that close itself raises, the handler logs one `warn` onto the
same queue, after whatever events the task body emitted. -/
def cleanupEvents (closeFails : Bool) : List EventKind :=
  if closeFails then [EventKind.warn] else []

/-- Everything `login_and_enumerate_task` observes from the outside world.
`closeFails` is whether `page.context.close()` in the `finally` block raises
(observable only when a page was created, i.e. `pageOk = true`). -/
structure EnumInput where
  pageOk : Bool
  login : LoginPage
  chanWaitOk : Bool
  items : List ChannelItem
  pageUrl : String
  url : String
  closeFails : Bool

/-- A task's observable outcome: the ordered event sequence it put on its
queue, the payload of its `channels` event if it emitted one, and whether its
`try` body ran to completion. -/
structure TaskOutput where
  events : List EventKind
  channelsPayload : Option (List Channel)
  ok : Bool
deriving DecidableEq, Repr

/-- `login_and_enumerate_task` (lines 142-200).  When `get_page` fails no page
exists, so the `finally` block has nothing to close; on every other path the
cleanup close runs after the body and a failing close appends one `warn`. -/
def login_and_enumerate_task (inp : EnumInput) : TaskOutput :=
  if !inp.pageOk then ⟨[.dev, .error, .error, .end_stream], none, false⟩
  else
    let ge : List EventKind := [.dev, .dev, .dev]
    let lev := (perform_login inp.login).1
    let fin := cleanupEvents inp.closeFails
    match (perform_login inp.login).2 with
    | .error _ => ⟨ge ++ lev ++ [.error, .end_stream] ++ fin, none, false⟩
    | .ok _ =>
      if !inp.chanWaitOk then ⟨ge ++ lev ++ [.info, .error, .end_stream] ++ fin, none, false⟩
      else if inp.items.isEmpty then
        ⟨ge ++ lev ++ [.info, .error, .warn, .end_stream] ++ fin, none, true⟩
      else
        let base := baseUrlOf inp.pageUrl inp.url
        let er := enumerate_channels base inp.items
        if er.1.isEmpty then
          ⟨ge ++ lev ++ [.info, .dev] ++ er.2 ++ [.warn, .end_stream] ++ fin, none, true⟩
        else
          ⟨ge ++ lev ++ [.info, .dev] ++ er.2 ++ [.info, .channels, .end_stream] ++ fin,
           some er.1, true⟩

/-! ### The scrape task (`scrape_messages_task`, lines 202-387) -/

/-- Everything `scrape_messages_task` observes from the outside world.
`cutoff` is the value of `three_months_ago = datetime.now() - timedelta(days=90)`
computed at line 222; `headerText` is the result of
`query_selector(room_title_header)` after the wait for it succeeded;
`closeFails` is whether `page.context.close()` in the `finally` block raises
(observable only when a page was created, i.e. `pageOk = true`). -/
structure ScrapeInput where
  pageOk : Bool
  login : LoginPage
  navOk : Bool
  headerWaitOk : Bool
  headerText : Option String
  containerWaitOk : Bool
  passes : List Pass
  depth : String
  cutoff : DateTime
  closeFails : Bool

/-- A scrape task's observable outcome: its event sequence, the payload of its
`scrape_result` event if it emitted one, and whether its `try` body ran to
completion. -/
structure ScrapeOutput where
  events : List EventKind
  result : Option (String × List Message)
  ok : Bool
deriving DecidableEq, Repr

/-- `scrape_messages_task`.  On the success path the function emits `success`
and `scrape_result` and returns; its comments defer `end_stream` to the caller
(`app.py`), and its two `except` blocks emit only an `error` event.  When
`get_page` fails no page exists, so the `finally` block has nothing to close;
on every other path the cleanup close runs after the body and a failing close
appends one `warn`. -/
def scrape_messages_task (inp : ScrapeInput) : ScrapeOutput :=
  if !inp.pageOk then ⟨[.dev, .error, .error], none, false⟩
  else
    let ge : List EventKind := [.dev, .dev, .dev]
    let lev := (perform_login inp.login).1
    let fin := cleanupEvents inp.closeFails
    match (perform_login inp.login).2 with
    | .error _ => ⟨ge ++ lev ++ [.error] ++ fin, none, false⟩
    | .ok _ =>
      if !inp.navOk then ⟨ge ++ lev ++ [.info, .error] ++ fin, none, false⟩
      else if !inp.headerWaitOk then ⟨ge ++ lev ++ [.info, .error] ++ fin, none, false⟩
      else
        let channelName := match inp.headerText with
          | some t => t
          | none => "Unknown Channel"
        if !inp.containerWaitOk then
          ⟨ge ++ lev ++ [.info, .success, .info, .error] ++ fin, none, false⟩
        else
          let d3 := inp.depth == "3months"
          let r := scrapeLoop inp.cutoff d3 inp.passes initialScrapeState
          ⟨ge ++ lev ++ [.info, .success, .info] ++ r.events ++
             [.success, .scrape_result] ++ fin,
           some (pyStrip channelName, r.final.messages), true⟩

/-! ### Branch equations for `processElements` and `scrapeLoop` -/

theorem processElements_nil (c : DateTime) (d3 : Bool) (st : ScrapeState) (found : Nat) :
    processElements c d3 [] st found = ⟨st, found, false, []⟩ := rfl

theorem processElements_cons_idNone (c : DateTime) (d3 : Bool) {e : MsgElement}
    (rest : List MsgElement) (st : ScrapeState) (found : Nat) (he : e.id = none) :
    processElements c d3 (e :: rest) st found = processElements c d3 rest st found := by
  simp [processElements, he]

theorem processElements_cons_idEmpty (c : DateTime) (d3 : Bool) {e : MsgElement}
    (rest : List MsgElement) (st : ScrapeState) (found : Nat) (he : e.id = some "") :
    processElements c d3 (e :: rest) st found = processElements c d3 rest st found := by
  simp [processElements, he]

theorem processElements_cons_seen (c : DateTime) (d3 : Bool) {e : MsgElement} {i : String}
    (rest : List MsgElement) (st : ScrapeState) (found : Nat)
    (he : e.id = some i) (hne : i ≠ "") (hm : i ∈ st.seen) :
    processElements c d3 (e :: rest) st found = processElements c d3 rest st found := by
  simp [processElements, he, hne, hm]

theorem processElements_cons_fails (c : DateTime) (d3 : Bool) {e : MsgElement} {i : String}
    (rest : List MsgElement) (st : ScrapeState) (found : Nat)
    (he : e.id = some i) (hne : i ≠ "") (hm : i ∉ st.seen) (hf : e.extractFails = true) :
    processElements c d3 (e :: rest) st found =
      (let r := processElements c d3 rest { st with seen := i :: st.seen } found
       ⟨r.st, r.found, r.stop, .warn :: r.events⟩) := by
  simp [processElements, he, hne, hm, hf]

theorem processElements_cons_stop (c : DateTime) (d3 : Bool) {e : MsgElement} {i : String}
    (rest : List MsgElement) (st : ScrapeState) (found : Nat)
    (he : e.id = some i) (hne : i ≠ "") (hm : i ∉ st.seen) (hf : e.extractFails = false)
    (hs : stopAfter c d3 (extractMessage e i).1 = true) :
    processElements c d3 (e :: rest) st found =
      ⟨{ st with seen := i :: st.seen, messages := st.messages ++ [(extractMessage e i).1] },
       found + 1, true, (extractMessage e i).2 ++ [.info]⟩ := by
  simp [processElements, he, hne, hm, hf, hs]

theorem processElements_cons_keep (c : DateTime) (d3 : Bool) {e : MsgElement} {i : String}
    (rest : List MsgElement) (st : ScrapeState) (found : Nat)
    (he : e.id = some i) (hne : i ≠ "") (hm : i ∉ st.seen) (hf : e.extractFails = false)
    (hs : stopAfter c d3 (extractMessage e i).1 = false) :
    processElements c d3 (e :: rest) st found =
      (let r := processElements c d3 rest
        { st with seen := i :: st.seen, messages := st.messages ++ [(extractMessage e i).1] }
        (found + 1)
       ⟨r.st, r.found, r.stop, (extractMessage e i).2 ++ r.events⟩) := by
  simp [processElements, he, hne, hm, hf, hs]

/-! ### Structural lemmas about the per-element loop -/

theorem extractMessage_id (e : MsgElement) (i : String) : (extractMessage e i).1.id = i := rfl

theorem processElements_spec (c : DateTime) (d3 : Bool) :
    ∀ (es : List MsgElement) (st : ScrapeState) (found : Nat),
      ∃ suf, (processElements c d3 es st found).st.messages = st.messages ++ suf ∧
        (∀ m ∈ suf, m.id ∉ st.seen) ∧
        (∀ m ∈ suf, m.id ∈ (processElements c d3 es st found).st.seen) ∧
        (suf.map Message.id).Nodup ∧
        (∀ x ∈ st.seen, x ∈ (processElements c d3 es st found).st.seen) ∧
        (processElements c d3 es st found).st.emptyPasses = st.emptyPasses ∧
        (processElements c d3 es st found).st.scrollAttempts = st.scrollAttempts := by
  intro es
  induction es with
  | nil =>
    intro st found
    exact ⟨[], by simp [processElements_nil]⟩
  | cons e rest ih =>
    intro st found
    cases he : e.id with
    | none => simpa [processElements_cons_idNone c d3 rest st found he] using ih st found
    | some i =>
      by_cases hne : i = ""
      · subst hne
        simpa [processElements_cons_idEmpty c d3 rest st found he] using ih st found
      · by_cases hm : i ∈ st.seen
        · simpa [processElements_cons_seen c d3 rest st found he hne hm] using ih st found
        · by_cases hf : e.extractFails
          · rw [processElements_cons_fails c d3 rest st found he hne hm hf]
            obtain ⟨suf, h1, h2, h3, h4, h5, h6, h7⟩ := ih { st with seen := i :: st.seen } found
            refine ⟨suf, by simpa using h1, ?_, by simpa using h3, h4, ?_,
              by simpa using h6, by simpa using h7⟩
            · intro m hmm
              have := h2 m hmm
              simp only [List.mem_cons] at this
              tauto
            · intro x hx
              exact h5 x (by simp [hx])
          · have hf' : e.extractFails = false := by simpa using hf
            by_cases hs : stopAfter c d3 (extractMessage e i).1 = true
            · rw [processElements_cons_stop c d3 rest st found he hne hm hf' hs]
              refine ⟨[(extractMessage e i).1], by simp, ?_, ?_, by simp, ?_, by simp, by simp⟩
              · intro m hmm
                simp only [List.mem_singleton] at hmm
                subst hmm
                simpa [extractMessage_id] using hm
              · intro m hmm
                simp only [List.mem_singleton] at hmm
                subst hmm
                simp [extractMessage_id]
              · intro x hx
                simp only [List.mem_cons]
                exact Or.inr hx
            · have hs' : stopAfter c d3 (extractMessage e i).1 = false := by simpa using hs
              rw [processElements_cons_keep c d3 rest st found he hne hm hf' hs']
              obtain ⟨suf, h1, h2, h3, h4, h5, h6, h7⟩ := ih
                { st with seen := i :: st.seen,
                          messages := st.messages ++ [(extractMessage e i).1] } (found + 1)
              refine ⟨(extractMessage e i).1 :: suf, ?_, ?_, ?_, ?_, ?_,
                by simpa using h6, by simpa using h7⟩
              · simpa using h1
              · intro m hmm
                simp only [List.mem_cons] at hmm
                rcases hmm with rfl | hmm
                · simpa [extractMessage_id] using hm
                · have := h2 m hmm
                  simp only [List.mem_cons] at this
                  tauto
              · intro m hmm
                simp only [List.mem_cons] at hmm
                rcases hmm with rfl | hmm
                · simpa [extractMessage_id] using h5 i (by simp)
                · exact h3 m hmm
              · simp only [List.map_cons, List.nodup_cons]
                refine ⟨?_, h4⟩
                intro hmem
                simp only [List.mem_map] at hmem
                obtain ⟨m, hm1, hm2⟩ := hmem
                have := h2 m hm1
                simp only [List.mem_cons] at this
                rw [extractMessage_id] at hm2
                exact this (Or.inl hm2)
              · intro x hx
                exact h5 x (by simp [hx])

/-! ### Branch equations for `scrapeLoop` -/

theorem scrapeLoop_nil (c : DateTime) (d3 : Bool) (st : ScrapeState) :
    scrapeLoop c d3 [] st = ⟨st, false, []⟩ := rfl

theorem scrapeLoop_cons_empty_topStop (c : DateTime) (d3 : Bool) {p : Pass}
    (rest : List Pass) (st : ScrapeState)
    (hE : p.elements = []) (hT : p.scrollAfter = p.scrollBefore ∧ p.scrollBefore = 0)
    (hSA : st.scrollAttempts + 1 > 2) :
    scrapeLoop c d3 (p :: rest) st =
      ⟨{ st with scrollAttempts := st.scrollAttempts + 1 }, true, [.dev, .warn, .info]⟩ := by
  simp [scrapeLoop, hE, hT.1, hT.2, hSA]

theorem scrapeLoop_cons_empty_top_giveUp (c : DateTime) (d3 : Bool) {p : Pass}
    (rest : List Pass) (st : ScrapeState)
    (hE : p.elements = []) (hT : p.scrollAfter = p.scrollBefore ∧ p.scrollBefore = 0)
    (hSA : ¬ st.scrollAttempts + 1 > 2) (hEP : st.emptyPasses + 1 > 3) :
    scrapeLoop c d3 (p :: rest) st =
      ⟨{ st with scrollAttempts := st.scrollAttempts + 1, emptyPasses := st.emptyPasses + 1 },
       true, [.dev, .warn, .warn, .warn]⟩ := by
  simp [scrapeLoop, hE, hT.1, hT.2, hSA, hEP]

theorem scrapeLoop_cons_empty_top_cont (c : DateTime) (d3 : Bool) {p : Pass}
    (rest : List Pass) (st : ScrapeState)
    (hE : p.elements = []) (hT : p.scrollAfter = p.scrollBefore ∧ p.scrollBefore = 0)
    (hSA : ¬ st.scrollAttempts + 1 > 2) (hEP : ¬ st.emptyPasses + 1 > 3) :
    scrapeLoop c d3 (p :: rest) st =
      (let r := scrapeLoop c d3 rest
        { st with scrollAttempts := st.scrollAttempts + 1, emptyPasses := st.emptyPasses + 1 }
       ⟨r.final, r.terminated, [.dev, .warn, .warn] ++ r.events⟩) := by
  simp [scrapeLoop, hE, hT.1, hT.2, hSA, hEP]

theorem scrapeLoop_cons_empty_notTop_giveUp (c : DateTime) (d3 : Bool) {p : Pass}
    (rest : List Pass) (st : ScrapeState)
    (hE : p.elements = []) (hT : ¬ (p.scrollAfter = p.scrollBefore ∧ p.scrollBefore = 0))
    (hEP : st.emptyPasses + 1 > 3) :
    scrapeLoop c d3 (p :: rest) st =
      ⟨{ st with scrollAttempts := 0, emptyPasses := st.emptyPasses + 1 },
       true, [.dev, .warn, .warn, .warn]⟩ := by
  have hT' : ((p.scrollAfter == p.scrollBefore) && (p.scrollBefore == 0)) = false := by
    rcases Decidable.not_and_iff_or_not.mp hT with h | h <;> simp [h]
  simp [scrapeLoop, hE, hT', hEP]

theorem scrapeLoop_cons_empty_notTop_cont (c : DateTime) (d3 : Bool) {p : Pass}
    (rest : List Pass) (st : ScrapeState)
    (hE : p.elements = []) (hT : ¬ (p.scrollAfter = p.scrollBefore ∧ p.scrollBefore = 0))
    (hEP : ¬ st.emptyPasses + 1 > 3) :
    scrapeLoop c d3 (p :: rest) st =
      (let r := scrapeLoop c d3 rest
        { st with scrollAttempts := 0, emptyPasses := st.emptyPasses + 1 }
       ⟨r.final, r.terminated, [.dev, .warn, .warn] ++ r.events⟩) := by
  have hT' : ((p.scrollAfter == p.scrollBefore) && (p.scrollBefore == 0)) = false := by
    rcases Decidable.not_and_iff_or_not.mp hT with h | h <;> simp [h]
  simp [scrapeLoop, hE, hT', hEP]

theorem scrapeLoop_cons_some_stop (c : DateTime) (d3 : Bool) {p : Pass}
    (rest : List Pass) (st : ScrapeState)
    (hE : p.elements ≠ [])
    (hstop : (processElements c d3 p.elements.reverse { st with emptyPasses := 0 } 0).stop = true) :
    scrapeLoop c d3 (p :: rest) st =
      ⟨(processElements c d3 p.elements.reverse { st with emptyPasses := 0 } 0).st, true,
       .dev :: (processElements c d3 p.elements.reverse { st with emptyPasses := 0 } 0).events⟩ := by
  simp [scrapeLoop, List.isEmpty_iff, hE, hstop]

theorem scrapeLoop_cons_some_found0_giveUp (c : DateTime) (d3 : Bool) {p : Pass}
    (rest : List Pass) (st : ScrapeState)
    (hE : p.elements ≠ [])
    (hstop : (processElements c d3 p.elements.reverse { st with emptyPasses := 0 } 0).stop = false)
    (hf0 : (processElements c d3 p.elements.reverse { st with emptyPasses := 0 } 0).found = 0)
    (hSA : (processElements c d3 p.elements.reverse { st with emptyPasses := 0 } 0).st.scrollAttempts + 1 ≥ 3) :
    scrapeLoop c d3 (p :: rest) st =
      ⟨{ (processElements c d3 p.elements.reverse { st with emptyPasses := 0 } 0).st with
          scrollAttempts := (processElements c d3 p.elements.reverse { st with emptyPasses := 0 } 0).st.scrollAttempts + 1 },
       true,
       (.dev :: (processElements c d3 p.elements.reverse { st with emptyPasses := 0 } 0).events) ++ [.info, .info]⟩ := by
  simp [scrapeLoop, List.isEmpty_iff, hE, hstop, hf0, hSA]

theorem scrapeLoop_cons_some_found0_cont (c : DateTime) (d3 : Bool) {p : Pass}
    (rest : List Pass) (st : ScrapeState)
    (hE : p.elements ≠ [])
    (hstop : (processElements c d3 p.elements.reverse { st with emptyPasses := 0 } 0).stop = false)
    (hf0 : (processElements c d3 p.elements.reverse { st with emptyPasses := 0 } 0).found = 0)
    (hSA : ¬ (processElements c d3 p.elements.reverse { st with emptyPasses := 0 } 0).st.scrollAttempts + 1 ≥ 3) :
    scrapeLoop c d3 (p :: rest) st =
      (let pr := processElements c d3 p.elements.reverse { st with emptyPasses := 0 } 0
       let r := scrapeLoop c d3 rest { pr.st with scrollAttempts := pr.st.scrollAttempts + 1 }
       ⟨r.final, r.terminated, (.dev :: pr.events) ++ [.info, .dev] ++ r.events⟩) := by
  simp [scrapeLoop, List.isEmpty_iff, hE, hstop, hf0, hSA]

theorem scrapeLoop_cons_some_new (c : DateTime) (d3 : Bool) {p : Pass}
    (rest : List Pass) (st : ScrapeState)
    (hE : p.elements ≠ [])
    (hstop : (processElements c d3 p.elements.reverse { st with emptyPasses := 0 } 0).stop = false)
    (hf0 : (processElements c d3 p.elements.reverse { st with emptyPasses := 0 } 0).found ≠ 0) :
    scrapeLoop c d3 (p :: rest) st =
      (let pr := processElements c d3 p.elements.reverse { st with emptyPasses := 0 } 0
       let r := scrapeLoop c d3 rest { pr.st with scrollAttempts := 0 }
       ⟨r.final, r.terminated, (.dev :: pr.events) ++ [.dev] ++ r.events⟩) := by
  simp [scrapeLoop, List.isEmpty_iff, hE, hstop, hf0]

/-! ### The accumulated-suffix description of the scrape loop -/

theorem scrapeLoop_spec (c : DateTime) (d3 : Bool) :
    ∀ (passes : List Pass) (st : ScrapeState),
      ∃ suf, (scrapeLoop c d3 passes st).final.messages = st.messages ++ suf ∧
        (∀ m ∈ suf, m.id ∉ st.seen) ∧
        (suf.map Message.id).Nodup ∧
        (∀ x ∈ st.seen, x ∈ (scrapeLoop c d3 passes st).final.seen) := by
  intro passes
  induction passes with
  | nil =>
    intro st
    exact ⟨[], by simp [scrapeLoop_nil]⟩
  | cons p rest ih =>
    intro st
    by_cases hE : p.elements = []
    · by_cases hT : p.scrollAfter = p.scrollBefore ∧ p.scrollBefore = 0
      · by_cases hSA : st.scrollAttempts + 1 > 2
        · rw [scrapeLoop_cons_empty_topStop c d3 rest st hE hT hSA]
          exact ⟨[], by simp⟩
        · by_cases hEP : st.emptyPasses + 1 > 3
          · rw [scrapeLoop_cons_empty_top_giveUp c d3 rest st hE hT hSA hEP]
            exact ⟨[], by simp⟩
          · rw [scrapeLoop_cons_empty_top_cont c d3 rest st hE hT hSA hEP]
            simpa using ih _
      · by_cases hEP : st.emptyPasses + 1 > 3
        · rw [scrapeLoop_cons_empty_notTop_giveUp c d3 rest st hE hT hEP]
          exact ⟨[], by simp⟩
        · rw [scrapeLoop_cons_empty_notTop_cont c d3 rest st hE hT hEP]
          simpa using ih _
    · obtain ⟨suf1, e1, e2, e3, e4, e5, e6, e7⟩ :=
        processElements_spec c d3 p.elements.reverse { st with emptyPasses := 0 } 0
      by_cases hstop :
          (processElements c d3 p.elements.reverse { st with emptyPasses := 0 } 0).stop = true
      · rw [scrapeLoop_cons_some_stop c d3 rest st hE hstop]
        refine ⟨suf1, by simpa using e1, ?_, e4, ?_⟩
        · intro m hmm
          simpa using e2 m hmm
        · intro x hx
          exact e5 x (by simpa using hx)
      · have hstop' :
            (processElements c d3 p.elements.reverse { st with emptyPasses := 0 } 0).stop = false := by
          simpa using hstop
        by_cases hf0 :
            (processElements c d3 p.elements.reverse { st with emptyPasses := 0 } 0).found = 0
        · by_cases hSA :
              (processElements c d3 p.elements.reverse { st with emptyPasses := 0 } 0).st.scrollAttempts + 1 ≥ 3
          · rw [scrapeLoop_cons_some_found0_giveUp c d3 rest st hE hstop' hf0 hSA]
            refine ⟨suf1, by simpa using e1, ?_, e4, ?_⟩
            · intro m hmm
              simpa using e2 m hmm
            · intro x hx
              exact e5 x (by simpa using hx)
          · rw [scrapeLoop_cons_some_found0_cont c d3 rest st hE hstop' hf0 hSA]
            obtain ⟨suf2, f1, f2, f3, f4⟩ := ih
              { (processElements c d3 p.elements.reverse { st with emptyPasses := 0 } 0).st with
                scrollAttempts :=
                  (processElements c d3 p.elements.reverse { st with emptyPasses := 0 } 0).st.scrollAttempts + 1 }
            refine ⟨suf1 ++ suf2, ?_, ?_, ?_, ?_⟩
            · show (scrapeLoop c d3 rest _).final.messages = _
              rw [f1]
              simp only [ScrapeState.mk.injEq]
              rw [e1]
              simp
            · intro m hmm
              rcases List.mem_append.mp hmm with h | h
              · simpa using e2 m h
              · intro hseen
                exact f2 m h (e5 m.id (by simpa using hseen))
            · rw [List.map_append, List.nodup_append]
              refine ⟨e4, f3, ?_⟩
              intro x hx1 hx2
              simp only [List.mem_map] at hx1 hx2
              obtain ⟨m1, hm1, rfl⟩ := hx1
              obtain ⟨m2, hm2, hid⟩ := hx2
              exact f2 m2 hm2 (hid ▸ e3 m1 hm1)
            · intro x hx
              exact f4 x (e5 x (by simpa using hx))
        · rw [scrapeLoop_cons_some_new c d3 rest st hE hstop' hf0]
          obtain ⟨suf2, f1, f2, f3, f4⟩ := ih
            { (processElements c d3 p.elements.reverse { st with emptyPasses := 0 } 0).st with
              scrollAttempts := 0 }
          refine ⟨suf1 ++ suf2, ?_, ?_, ?_, ?_⟩
          · show (scrapeLoop c d3 rest _).final.messages = _
            rw [f1]
            simp only [ScrapeState.mk.injEq]
            rw [e1]
            simp
          · intro m hmm
            rcases List.mem_append.mp hmm with h | h
            · simpa using e2 m h
            · intro hseen
              exact f2 m h (e5 m.id (by simpa using hseen))
          · rw [List.map_append, List.nodup_append]
            refine ⟨e4, f3, ?_⟩
            intro x hx1 hx2
            simp only [List.mem_map] at hx1 hx2
            obtain ⟨m1, hm1, rfl⟩ := hx1
            obtain ⟨m2, hm2, hid⟩ := hx2
            exact f2 m2 hm2 (hid ▸ e3 m1 hm1)
          · intro x hx
            exact f4 x (e5 x (by simpa using hx))

/-! ### The cutoff invariant -/

/-- No message in `ms` has a parsed timestamp strictly older than `c`. -/
def CutoffOk (c : DateTime) (ms : List Message) : Prop :=
  ∀ m ∈ ms, ∀ t, m.timestamp_dt = some t → ¬ t.key < c.key

/-- Bool test: some message in `ms` has a parsed timestamp older than `c`. -/
def hasCutoffViolator (c : DateTime) (ms : List Message) : Bool :=
  ms.any fun m =>
    match m.timestamp_dt with
    | some t => decide (t.key < c.key)
    | none => false

theorem hasCutoffViolator_eq_false_iff (c : DateTime) (ms : List Message) :
    hasCutoffViolator c ms = false ↔ CutoffOk c ms := by
  unfold hasCutoffViolator CutoffOk
  rw [← Bool.not_eq_true, List.any_eq_true]
  constructor
  · intro h m hm t ht hlt
    exact h ⟨m, hm, by rw [ht]; simpa using hlt⟩
  · rintro h ⟨m, hm, hx⟩
    cases ht : m.timestamp_dt with
    | none => rw [ht] at hx; simp at hx
    | some t =>
      rw [ht] at hx
      simp only [decide_eq_true_eq] at hx
      exact h m hm t ht hx

theorem stopAfter_false_cutoff (c : DateTime) (m : Message)
    (h : stopAfter c true m = false) : ∀ t, m.timestamp_dt = some t → ¬ t.key < c.key := by
  intro t ht hlt
  unfold stopAfter at h
  rw [ht] at h
  simp [hlt] at h

theorem processElements_cutoff (c : DateTime) :
    ∀ (es : List MsgElement) (st : ScrapeState) (found : Nat),
      CutoffOk c st.messages →
      (((processElements c true es st found).stop = false →
          CutoffOk c (processElements c true es st found).st.messages) ∧
       ((processElements c true es st found).stop = true →
          ∃ ms m, (processElements c true es st found).st.messages = ms ++ [m] ∧ CutoffOk c ms)) := by
  intro es
  induction es with
  | nil =>
    intro st found h
    refine ⟨fun _ => by simpa [processElements_nil] using h, fun habs => ?_⟩
    rw [processElements_nil] at habs
    simp at habs
  | cons e rest ih =>
    intro st found h
    cases he : e.id with
    | none => simpa [processElements_cons_idNone c true rest st found he] using ih st found h
    | some i =>
      by_cases hne : i = ""
      · subst hne
        simpa [processElements_cons_idEmpty c true rest st found he] using ih st found h
      · by_cases hm : i ∈ st.seen
        · simpa [processElements_cons_seen c true rest st found he hne hm] using ih st found h
        · by_cases hf : e.extractFails
          · rw [processElements_cons_fails c true rest st found he hne hm hf]
            simpa using ih { st with seen := i :: st.seen } found (by simpa using h)
          · have hf' : e.extractFails = false := by simpa using hf
            by_cases hs : stopAfter c true (extractMessage e i).1 = true
            · rw [processElements_cons_stop c true rest st found he hne hm hf' hs]
              refine ⟨fun habs => by simp at habs, fun _ => ?_⟩
              exact ⟨st.messages, (extractMessage e i).1, by simp, h⟩
            · have hs' : stopAfter c true (extractMessage e i).1 = false := by simpa using hs
              rw [processElements_cons_keep c true rest st found he hne hm hf' hs']
              have hnew : CutoffOk c (st.messages ++ [(extractMessage e i).1]) := by
                intro m hmm t ht
                rcases List.mem_append.mp hmm with hmm | hmm
                · exact h m hmm t ht
                · simp only [List.mem_singleton] at hmm
                  subst hmm
                  exact stopAfter_false_cutoff c _ hs' t ht
              simpa using ih
                { st with seen := i :: st.seen,
                          messages := st.messages ++ [(extractMessage e i).1] } (found + 1)
                (by simpa using hnew)

theorem scrapeLoop_cutoff (c : DateTime) :
    ∀ (passes : List Pass) (st : ScrapeState),
      CutoffOk c st.messages →
      (CutoffOk c (scrapeLoop c true passes st).final.messages ∨
       (∃ ms m, (scrapeLoop c true passes st).final.messages = ms ++ [m] ∧ CutoffOk c ms ∧
          (scrapeLoop c true passes st).terminated = true)) := by
  intro passes
  induction passes with
  | nil =>
    intro st h
    exact Or.inl (by simpa [scrapeLoop_nil] using h)
  | cons p rest ih =>
    intro st h
    by_cases hE : p.elements = []
    · by_cases hT : p.scrollAfter = p.scrollBefore ∧ p.scrollBefore = 0
      · by_cases hSA : st.scrollAttempts + 1 > 2
        · rw [scrapeLoop_cons_empty_topStop c true rest st hE hT hSA]
          exact Or.inl (by simpa using h)
        · by_cases hEP : st.emptyPasses + 1 > 3
          · rw [scrapeLoop_cons_empty_top_giveUp c true rest st hE hT hSA hEP]
            exact Or.inl (by simpa using h)
          · rw [scrapeLoop_cons_empty_top_cont c true rest st hE hT hSA hEP]
            simpa using ih _ (by simpa using h)
      · by_cases hEP : st.emptyPasses + 1 > 3
        · rw [scrapeLoop_cons_empty_notTop_giveUp c true rest st hE hT hEP]
          exact Or.inl (by simpa using h)
        · rw [scrapeLoop_cons_empty_notTop_cont c true rest st hE hT hEP]
          simpa using ih _ (by simpa using h)
    · have hpr := processElements_cutoff c p.elements.reverse { st with emptyPasses := 0 } 0
        (by simpa using h)
      by_cases hstop :
          (processElements c true p.elements.reverse { st with emptyPasses := 0 } 0).stop = true
      · rw [scrapeLoop_cons_some_stop c true rest st hE hstop]
        obtain ⟨ms, m, hms, hok⟩ := hpr.2 hstop
        exact Or.inr ⟨ms, m, by simpa using hms, hok, rfl⟩
      · have hstop' :
            (processElements c true p.elements.reverse { st with emptyPasses := 0 } 0).stop = false := by
          simpa using hstop
        have hok := hpr.1 hstop'
        by_cases hf0 :
            (processElements c true p.elements.reverse { st with emptyPasses := 0 } 0).found = 0
        · by_cases hSA :
              (processElements c true p.elements.reverse { st with emptyPasses := 0 } 0).st.scrollAttempts + 1 ≥ 3
          · rw [scrapeLoop_cons_some_found0_giveUp c true rest st hE hstop' hf0 hSA]
            exact Or.inl (by simpa using hok)
          · rw [scrapeLoop_cons_some_found0_cont c true rest st hE hstop' hf0 hSA]
            simpa using ih _ (by simpa using hok)
        · rw [scrapeLoop_cons_some_new c true rest st hE hstop' hf0]
          simpa using ih _ (by simpa using hok)

/-! ### Termination on empty renders, and event bookkeeping -/

theorem scrapeLoop_allEmpty (c : DateTime) (d3 : Bool) :
    ∀ (passes : List Pass) (st : ScrapeState), (∀ p ∈ passes, p.elements = []) →
      st.emptyPasses ≤ 3 →
      (scrapeLoop c d3 passes st).final.messages = st.messages ∧
      (4 ≤ passes.length + st.emptyPasses →
        (scrapeLoop c d3 passes st).terminated = true) := by
  intro passes
  induction passes with
  | nil =>
    intro st _ hep
    refine ⟨by simp [scrapeLoop_nil], fun h4 => ?_⟩
    simp at h4
    omega
  | cons p rest ih =>
    intro st hall hep
    have hE : p.elements = [] := hall p (List.mem_cons_self p rest)
    have hall' : ∀ q ∈ rest, q.elements = [] := fun q hq => hall q (List.mem_cons_of_mem p hq)
    by_cases hT : p.scrollAfter = p.scrollBefore ∧ p.scrollBefore = 0
    · by_cases hSA : st.scrollAttempts + 1 > 2
      · rw [scrapeLoop_cons_empty_topStop c d3 rest st hE hT hSA]
        exact ⟨rfl, fun _ => rfl⟩
      · by_cases hEP : st.emptyPasses + 1 > 3
        · rw [scrapeLoop_cons_empty_top_giveUp c d3 rest st hE hT hSA hEP]
          exact ⟨rfl, fun _ => rfl⟩
        · rw [scrapeLoop_cons_empty_top_cont c d3 rest st hE hT hSA hEP]
          obtain ⟨g1, g2⟩ := ih
            { st with scrollAttempts := st.scrollAttempts + 1, emptyPasses := st.emptyPasses + 1 }
            hall' (by simpa using Nat.lt_succ_iff.mp (by omega))
          refine ⟨by simpa using g1, fun h4 => ?_⟩
          have : 4 ≤ rest.length + (st.emptyPasses + 1) := by
            simp only [List.length_cons] at h4
            omega
          simpa using g2 this
    · by_cases hEP : st.emptyPasses + 1 > 3
      · rw [scrapeLoop_cons_empty_notTop_giveUp c d3 rest st hE hT hEP]
        exact ⟨rfl, fun _ => rfl⟩
      · rw [scrapeLoop_cons_empty_notTop_cont c d3 rest st hE hT hEP]
        obtain ⟨g1, g2⟩ := ih
          { st with scrollAttempts := 0, emptyPasses := st.emptyPasses + 1 } hall'
          (by simpa using Nat.lt_succ_iff.mp (by omega))
        refine ⟨by simpa using g1, fun h4 => ?_⟩
        have : 4 ≤ rest.length + (st.emptyPasses + 1) := by
          simp only [List.length_cons] at h4
          omega
        simpa using g2 this

theorem extractMessage_events (e : MsgElement) (i : String) :
    (extractMessage e i).2 = [] ∨ (extractMessage e i).2 = [EventKind.dev] := by
  unfold extractMessage
  rcases htt : e.tsEl with _ | attr
  · simp
  · rcases attr with _ | s
    · simp
    · by_cases hs : s = ""
      · simp [hs]
      · cases hp : parse_timestamp s <;> simp [hs, hp]

theorem extractMessage_events_count (e : MsgElement) (i : String) (k : EventKind)
    (hk : k ≠ EventKind.dev) : (extractMessage e i).2.count k = 0 := by
  rcases extractMessage_events e i with h | h <;> rw [h] <;> simp [List.count_cons, hk]

theorem processElements_events_count (c : DateTime) (d3 : Bool) (k : EventKind)
    (hk1 : k ≠ EventKind.dev) (hk2 : k ≠ EventKind.warn) (hk3 : k ≠ EventKind.info) :
    ∀ (es : List MsgElement) (st : ScrapeState) (found : Nat),
      (processElements c d3 es st found).events.count k = 0 := by
  intro es
  induction es with
  | nil => intro st found; simp [processElements_nil]
  | cons e rest ih =>
    intro st found
    cases he : e.id with
    | none => simpa [processElements_cons_idNone c d3 rest st found he] using ih st found
    | some i =>
      by_cases hne : i = ""
      · subst hne
        simpa [processElements_cons_idEmpty c d3 rest st found he] using ih st found
      · by_cases hm : i ∈ st.seen
        · simpa [processElements_cons_seen c d3 rest st found he hne hm] using ih st found
        · by_cases hf : e.extractFails
          · rw [processElements_cons_fails c d3 rest st found he hne hm hf]
            simp [List.count_cons, hk2, ih]
          · have hf' : e.extractFails = false := by simpa using hf
            by_cases hs : stopAfter c d3 (extractMessage e i).1 = true
            · rw [processElements_cons_stop c d3 rest st found he hne hm hf' hs]
              simp [List.count_append, extractMessage_events_count e i k hk1, hk3]
            · have hs' : stopAfter c d3 (extractMessage e i).1 = false := by simpa using hs
              rw [processElements_cons_keep c d3 rest st found he hne hm hf' hs']
              simp [List.count_append, extractMessage_events_count e i k hk1, ih]

theorem scrapeLoop_events_count (c : DateTime) (d3 : Bool) (k : EventKind)
    (hk1 : k ≠ EventKind.dev) (hk2 : k ≠ EventKind.warn) (hk3 : k ≠ EventKind.info) :
    ∀ (passes : List Pass) (st : ScrapeState),
      (scrapeLoop c d3 passes st).events.count k = 0 := by
  intro passes
  induction passes with
  | nil => intro st; simp [scrapeLoop_nil]
  | cons p rest ih =>
    intro st
    by_cases hE : p.elements = []
    · by_cases hT : p.scrollAfter = p.scrollBefore ∧ p.scrollBefore = 0
      · by_cases hSA : st.scrollAttempts + 1 > 2
        · rw [scrapeLoop_cons_empty_topStop c d3 rest st hE hT hSA]
          simp [List.count_cons, hk1, hk2, hk3]
        · by_cases hEP : st.emptyPasses + 1 > 3
          · rw [scrapeLoop_cons_empty_top_giveUp c d3 rest st hE hT hSA hEP]
            simp [List.count_cons, hk1, hk2, hk3]
          · rw [scrapeLoop_cons_empty_top_cont c d3 rest st hE hT hSA hEP]
            simp [List.count_append, List.count_cons, hk1, hk2, hk3, ih]
      · by_cases hEP : st.emptyPasses + 1 > 3
        · rw [scrapeLoop_cons_empty_notTop_giveUp c d3 rest st hE hT hEP]
          simp [List.count_cons, hk1, hk2, hk3]
        · rw [scrapeLoop_cons_empty_notTop_cont c d3 rest st hE hT hEP]
          simp [List.count_append, List.count_cons, hk1, hk2, hk3, ih]
    · have hpe := processElements_events_count c d3 k hk1 hk2 hk3
        p.elements.reverse { st with emptyPasses := 0 } 0
      by_cases hstop :
          (processElements c d3 p.elements.reverse { st with emptyPasses := 0 } 0).stop = true
      · rw [scrapeLoop_cons_some_stop c d3 rest st hE hstop]
        simp [List.count_cons, hk1, hpe]
      · have hstop' :
            (processElements c d3 p.elements.reverse { st with emptyPasses := 0 } 0).stop = false := by
          simpa using hstop
        by_cases hf0 :
            (processElements c d3 p.elements.reverse { st with emptyPasses := 0 } 0).found = 0
        · by_cases hSA :
              (processElements c d3 p.elements.reverse { st with emptyPasses := 0 } 0).st.scrollAttempts + 1 ≥ 3
          · rw [scrapeLoop_cons_some_found0_giveUp c d3 rest st hE hstop' hf0 hSA]
            simp [List.count_append, List.count_cons, hk1, hk3, hpe]
          · rw [scrapeLoop_cons_some_found0_cont c d3 rest st hE hstop' hf0 hSA]
            simp [List.count_append, List.count_cons, hk1, hk3, hpe, ih]
        · rw [scrapeLoop_cons_some_new c d3 rest st hE hstop' hf0]
          simp [List.count_append, List.count_cons, hk1, hpe, ih]

theorem perform_login_events_count (p : LoginPage) (k : EventKind)
    (hk1 : k ≠ EventKind.dev) (hk2 : k ≠ EventKind.info) (hk3 : k ≠ EventKind.error)
    (hk4 : k ≠ EventKind.success) : (perform_login p).1.count k = 0 := by
  rcases p with ⟨nav, fu, fp, cl, race, err, sv⟩
  cases nav <;> cases fu <;> cases fp <;> cases cl <;> cases race <;> cases sv <;>
    rcases err with _ | l <;>
    simp [perform_login, List.count_cons, List.count_append, hk1, hk2, hk3, hk4]

theorem enumerate_channels_events_count (base : String) (k : EventKind)
    (hk1 : k ≠ EventKind.dev) (hk2 : k ≠ EventKind.warn) :
    ∀ (items : List ChannelItem), (enumerate_channels base items).2.count k = 0 := by
  intro items
  induction items with
  | nil => simp [enumerate_channels]
  | cons it rest ih =>
    cases hn : it.nameEl with
    | none => simp [enumerate_channels, hn, List.count_cons, hk2, ih]
    | some s =>
      cases hh : it.href with
      | none => simp [enumerate_channels, hn, hh, List.count_cons, hk2, ih]
      | some h =>
        by_cases hcond : pyStrip s = "" ∨ h = ""
        · simp [enumerate_channels, hn, hh, hcond, List.count_cons, hk2, ih]
        · simp [enumerate_channels, hn, hh, hcond, List.count_cons, hk1, ih]

theorem cleanupEvents_count (b : Bool) (k : EventKind) (hk : k ≠ EventKind.warn) :
    (cleanupEvents b).count k = 0 := by
  cases b <;> simp [cleanupEvents, List.count_cons, hk]

theorem cleanupEvents_false : cleanupEvents false = [] := rfl

theorem cleanupEvents_true : cleanupEvents true = [EventKind.warn] := rfl

/-! ### Claim theorems -/

/-- C8 (confirmed): shutdown of the browser session (`close_browser`) is
idempotent: a second call leaves the engine state unchanged, and calling it
with no prior engine start (both handles `None`) is a safe no-op; afterwards
the Playwright handle is always cleared, and the browser handle is cleared
whenever it was absent or connected. -/
theorem close_browser_idempotent :
    (∀ s : EngineState, close_browser (close_browser s) = close_browser s) ∧
    close_browser ⟨false, none⟩ = ⟨false, none⟩ ∧
    (∀ s : EngineState, (close_browser s).playwright = false) ∧
    (∀ s : EngineState, s.browser = none ∨ s.browser = some true →
      (close_browser s).browser = none) := by
  refine ⟨?_, rfl, ?_, ?_⟩
  · rintro ⟨pw, _ | b⟩
    · rfl
    · cases b <;> rfl
  · rintro ⟨pw, _ | b⟩
    · rfl
    · cases b <;> rfl
  · rintro ⟨pw, br⟩ (h | h) <;> subst h <;> rfl

/-- Witness for C8 at a started, connected engine. -/
theorem close_browser_idempotent_witness :
    (close_browser ⟨true, some true⟩).browser = none :=
  close_browser_idempotent.2.2.2 ⟨true, some true⟩ (Or.inr rfl)

/-- C2 (confirmed): over any sequence of DOM snapshots, no message id appears
twice in the scraped output: the `seen_message_ids` check before each append
guarantees the ids of the collected messages are pairwise distinct, even when
an element reappears in a later snapshot. -/
theorem dedup_invariant (c : DateTime) (d3 : Bool) (passes : List Pass) :
    (((scrapeLoop c d3 passes initialScrapeState).final.messages).map Message.id).Nodup := by
  obtain ⟨suf, h1, _, h3, _⟩ := scrapeLoop_spec c d3 passes initialScrapeState
  rw [h1]
  simpa [initialScrapeState] using h3

/-- C1 (corrected): under the 90-day depth policy, every message with a parsed
timestamp EXCEPT POSSIBLY THE LAST ONE APPENDED satisfies
`timestamp >= three_months_ago`, and whenever any too-old message made it into
the result the loop terminated at it (stop-at-first-violation).  The claim is
amended because the code appends the message first (line 307) and only then
checks the cutoff (line 313), so the triggering message itself is included. -/
theorem cutoff_stop_amended (c : DateTime) (passes : List Pass) :
    hasCutoffViolator c
      ((scrapeLoop c true passes initialScrapeState).final.messages.dropLast) = false ∧
    (hasCutoffViolator c (scrapeLoop c true passes initialScrapeState).final.messages = true →
      (scrapeLoop c true passes initialScrapeState).terminated = true) := by
  have h0 : CutoffOk c initialScrapeState.messages := by
    intro m hm
    simp [initialScrapeState] at hm
  rcases scrapeLoop_cutoff c passes initialScrapeState h0 with h | ⟨ms, m, hms, hok, hterm⟩
  · have hv := (hasCutoffViolator_eq_false_iff c _).mpr h
    constructor
    · rw [hasCutoffViolator_eq_false_iff]
      intro m hm
      exact h m (List.dropLast_subset _ hm)
    · intro habs
      rw [hv] at habs
      cases habs
  · constructor
    · rw [hms, List.dropLast_concat, hasCutoffViolator_eq_false_iff]
      exact hok
    · intro _
      exact hterm

/-- C1 counterexample to the claim as stated: a single rendered message whose
parsed timestamp (21 May 2024) is older than the cutoff (20 Feb 2025) IS
present in the returned messages, contradicting "a message older than the
cutoff is never included in the result". -/
theorem cutoff_claim_counterexample :
    hasCutoffViolator ⟨2025, 2, 20, 22, 47⟩
      (scrapeLoop ⟨2025, 2, 20, 22, 47⟩ true
        [⟨[⟨some "m1", some "alice", some "hi",
            some (some "May 21, 2024 10:47 PM"), false⟩], 0, 0⟩]
        initialScrapeState).final.messages = true := by decide

/-- Witness for the amended C1: the loop stops at the violating message. -/
theorem cutoff_stop_amended_witness :
    (scrapeLoop ⟨2025, 2, 20, 22, 47⟩ true
      [⟨[⟨some "m1", some "alice", some "hi",
          some (some "May 21, 2024 10:47 PM"), false⟩], 0, 0⟩]
      initialScrapeState).terminated = true :=
  (cutoff_stop_amended ⟨2025, 2, 20, 22, 47⟩
    [⟨[⟨some "m1", some "alice", some "hi",
        some (some "May 21, 2024 10:47 PM"), false⟩], 0, 0⟩]).2 (by decide)

/-- C4 (confirmed): after credentials are submitted, `perform_login` resolves
to exactly one of three outcomes: a visible (hence attached) error marker
yields a credentials-rejected failure whose diagnostic contains the marker
text; neither marker appearing within the bounded race timeout yields the
login-timeout failure; a visible success marker with no error marker present
yields success. -/
theorem login_outcomes (p : LoginPage)
    (hn : p.navOk = true) (hu : p.fillUserOk = true) (hp2 : p.fillPassOk = true)
    (hc : p.clickOk = true) :
    (∀ l, p.raceVisible = true → p.errorEl = some l →
       ((perform_login p).2 = Except.error (.loginFailed (loginFailedMsg l)) ∧
        ∃ pre post, loginFailedMsg l = pre ++ joinDiag l ++ post)) ∧
    (p.raceVisible = false → (perform_login p).2 = Except.error .loginTimedOut) ∧
    (p.raceVisible = true → p.errorEl = none → p.successVisibleAgain = true →
       (perform_login p).2 = Except.ok ()) := by
  refine ⟨?_, ?_, ?_⟩
  · intro l hr he
    constructor
    · simp [perform_login, hn, hu, hp2, hc, hr, he]
    · exact ⟨"Login Failed: ", ". Check credentials or error indicator selector.", rfl⟩
  · intro hr
    simp [perform_login, hn, hu, hp2, hc, hr]
  · intro hr he hsv
    simp [perform_login, hn, hu, hp2, hc, hr, he, hsv]

/-- Witness for C4 at a page whose error marker shows "Invalid credentials". -/
theorem login_outcomes_witness :
    (perform_login ⟨true, true, true, true, true, some ["Invalid credentials"], true⟩).2
      = Except.error (.loginFailed (loginFailedMsg ["Invalid credentials"])) :=
  ((login_outcomes _ rfl rfl rfl rfl).1 ["Invalid credentials"] rfl rfl).1

/-- C5 (confirmed): timestamp parsing tries the fixed ordered format list
`timestamp_formats` and the first matching format wins; a timestamp string no
format matches leaves the message emitted with its raw string verbatim and a
null parsed value, and processing continues with the remaining elements (the
message is never dropped). -/
theorem timestamp_parsing_retention :
    (∀ s, parse_timestamp s = firstMatch timestamp_formats s) ∧
    (∀ (c : DateTime) (d3 : Bool) (e : MsgElement) (i : String) (rest : List MsgElement)
        (st : ScrapeState) (found : Nat) (sRaw : String),
      e.id = some i → i ≠ "" → i ∉ st.seen → e.extractFails = false →
      e.tsEl = some (some sRaw) → sRaw ≠ "" → parse_timestamp sRaw = none →
      ((extractMessage e i).1.timestamp_raw = some sRaw ∧
       (extractMessage e i).1.timestamp_dt = none ∧
       processElements c d3 (e :: rest) st found =
         (let r := processElements c d3 rest
            { st with seen := i :: st.seen,
                      messages := st.messages ++ [(extractMessage e i).1] }
            (found + 1)
          ⟨r.st, r.found, r.stop, [EventKind.dev] ++ r.events⟩))) := by
  constructor
  · intro s
    unfold parse_timestamp timestamp_formats
    cases h : parseFmt1 s with
    | none =>
      rw [firstMatch, h, firstMatch]
      cases parseFmt2 s <;> simp [firstMatch]
    | some t => rw [firstMatch, h]
  · intro c d3 e i rest st found sRaw hid hne hmem hfail hts hsr hp
    have hraw : (extractMessage e i).1.timestamp_raw = some sRaw := by
      simp [extractMessage, hts]
    have hdt : (extractMessage e i).1.timestamp_dt = none := by
      simp [extractMessage, hts, hsr, hp]
    have hev : (extractMessage e i).2 = [EventKind.dev] := by
      simp [extractMessage, hts, hsr, hp]
    have hstop : stopAfter c d3 (extractMessage e i).1 = false := by
      simp [stopAfter, hdt]
    refine ⟨hraw, hdt, ?_⟩
    rw [processElements_cons_keep c d3 rest st found hid hne hmem hfail hstop, hev]

/-- Witness for C5 on an unparseable timestamp string. -/
theorem timestamp_parsing_retention_witness :
    (extractMessage ⟨some "m1", some "alice", some "hi", some (some "yesterday at noon"), false⟩
      "m1").1.timestamp_raw = some "yesterday at noon" :=
  (timestamp_parsing_retention.2 ⟨2025, 1, 1, 0, 0⟩ false
    ⟨some "m1", some "alice", some "hi", some (some "yesterday at noon"), false⟩
    "m1" [] initialScrapeState 0 "yesterday at noon"
    rfl (by decide) (by decide) rfl rfl (by decide) (by decide)).1

/-- C6 (confirmed): enumeration returns exactly the channel items having both
a non-empty display name and a non-empty navigation reference, in DOM order
(`filterMap` over the item list); each skipped item logs exactly one `warn`
diagnostic; an absolute reference is kept as-is and a relative one is joined
onto the page origin. -/
theorem enumeration_filter_order (base : String) (items : List ChannelItem) :
    (enumerate_channels base items).1 = items.filterMap (specKeepItem base) ∧
    (enumerate_channels base items).2.count EventKind.warn =
      (items.filter (fun it => (specKeepItem base it).isNone)).length ∧
    (∀ ch ∈ (enumerate_channels base items).1, ∃ it ∈ items, ∃ s h,
      it.nameEl = some s ∧ it.href = some h ∧ pyStrip s ≠ "" ∧ h ≠ "" ∧
      ch = ⟨pyStrip s, resolveRef base h⟩ ∧
      (strStarts h "http" = true → ch.id = h) ∧
      (strStarts h "http" = false →
        ch.id = base ++ (if strStarts h "/" = true then h else "/" ++ h))) := by
  have hmain : ∀ (l : List ChannelItem),
      (enumerate_channels base l).1 = l.filterMap (specKeepItem base) ∧
      (enumerate_channels base l).2.count EventKind.warn =
        (l.filter (fun it => (specKeepItem base it).isNone)).length := by
    intro l
    induction l with
    | nil => simp [enumerate_channels]
    | cons it rest ih =>
      cases hn : it.nameEl with
      | none =>
        simp [enumerate_channels, specKeepItem, hn, List.count_cons, ih]
      | some s =>
        cases hh : it.href with
        | none =>
          simp [enumerate_channels, specKeepItem, hn, hh, List.count_cons, ih]
        | some h =>
          by_cases hc : pyStrip s = "" ∨ h = ""
          · have hkeep : specKeepItem base it = none := by
              simp only [specKeepItem, hn, hh]
              rcases hc with hc | hc <;> simp [hc]
            have hcond : ¬ (pyStrip s ≠ "" ∧ h ≠ "") := by tauto
            simp [enumerate_channels, hn, hh, hc, hkeep, List.count_cons, ih]
          · push_neg at hc
            have hkeep : specKeepItem base it = some ⟨pyStrip s, resolveRef base h⟩ := by
              simp [specKeepItem, hn, hh, hc.1, hc.2]
            have hc' : ¬ (pyStrip s = "" ∨ h = "") := by tauto
            simp [enumerate_channels, hn, hh, hc', hkeep, List.count_cons, ih]
  refine ⟨(hmain items).1, (hmain items).2, ?_⟩
  intro ch hch
  rw [(hmain items).1] at hch
  obtain ⟨it, hit, hsome⟩ := List.mem_filterMap.mp hch
  cases hn : it.nameEl with
  | none => simp only [specKeepItem, hn] at hsome; cases hsome
  | some s =>
    cases hh : it.href with
    | none => simp only [specKeepItem, hn, hh] at hsome; cases hsome
    | some h =>
      simp only [specKeepItem, hn, hh] at hsome
      by_cases hc : pyStrip s ≠ "" ∧ h ≠ ""
      · rw [if_pos hc] at hsome
        obtain rfl : (⟨pyStrip s, resolveRef base h⟩ : Channel) = ch := by
          simpa using hsome
        refine ⟨it, hit, s, h, hn, hh, hc.1, hc.2, rfl, ?_, ?_⟩
        · intro habs
          simp [resolveRef, habs]
        · intro habs
          simp [resolveRef, habs]
      · rw [if_neg hc] at hsome
        cases hsome

/-- Witness for C6 on a five-item fixture with one item per failure mode. -/
theorem enumeration_filter_order_witness :
    (enumerate_channels "https://x.example"
      [⟨some " general ", some "/channel/general"⟩, ⟨some "dev", none⟩,
       ⟨none, some "/x"⟩, ⟨some "ops", some "https://other/abs"⟩,
       ⟨some "  ", some "/y"⟩]).1 =
      ([⟨some " general ", some "/channel/general"⟩, ⟨some "dev", none⟩,
        ⟨none, some "/x"⟩, ⟨some "ops", some "https://other/abs"⟩,
        ⟨some "  ", some "/y"⟩] : List ChannelItem).filterMap
        (specKeepItem "https://x.example") :=
  (enumeration_filter_order "https://x.example" _).1

/-- C9 (confirmed): an element whose detail extraction raises is skipped with
a `warn` while the pass continues with the remaining elements, but its id has
already been added to `seen_message_ids`; consequently once an id is in the
seen set, no later pass can ever contribute a message with that id. -/
theorem extraction_failure_skip (c : DateTime) (d3 : Bool) (e : MsgElement) (i : String)
    (hid : e.id = some i) (hne : i ≠ "") (hf : e.extractFails = true) :
    (∀ (rest : List MsgElement) (st : ScrapeState) (found : Nat), i ∉ st.seen →
      processElements c d3 (e :: rest) st found =
        (let r := processElements c d3 rest { st with seen := i :: st.seen } found
         ⟨r.st, r.found, r.stop, .warn :: r.events⟩)) ∧
    (∀ (passes : List Pass) (st : ScrapeState), i ∈ st.seen →
      ∀ m ∈ (scrapeLoop c d3 passes st).final.messages, m.id = i → m ∈ st.messages) := by
  constructor
  · intro rest st found hmem
    exact processElements_cons_fails c d3 rest st found hid hne hmem hf
  · intro passes st hmem m hm hmi
    obtain ⟨suf, h1, h2, _, _⟩ := scrapeLoop_spec c d3 passes st
    rw [h1] at hm
    rcases List.mem_append.mp hm with h | h
    · exact h
    · exact absurd (hmi ▸ hmem) (h2 m h)

/-- Witness for C9: one failing element is skipped and recorded as seen. -/
theorem extraction_failure_skip_witness :
    processElements ⟨2025, 1, 1, 0, 0⟩ false
      [⟨some "m1", some "alice", some "hi", some (some "x"), true⟩]
      initialScrapeState 0 =
      (let r := processElements ⟨2025, 1, 1, 0, 0⟩ false []
          { initialScrapeState with seen := "m1" :: initialScrapeState.seen } 0
       ⟨r.st, r.found, r.stop, .warn :: r.events⟩) :=
  (extraction_failure_skip ⟨2025, 1, 1, 0, 0⟩ false
    ⟨some "m1", some "alice", some "hi", some (some "x"), true⟩ "m1"
    rfl (by decide) rfl).1 [] initialScrapeState 0 (by decide)

/-- On any login-page behaviour on which `perform_login` succeeds, its event
trace is exactly the five progress logs followed by the success log. -/
theorem perform_login_ok_events (p : LoginPage) (h : (perform_login p).2 = Except.ok ()) :
    (perform_login p).1 = [.info, .dev, .dev, .info, .dev, .success] := by
  rcases p with ⟨nav, fu, fp, cl, race, err, sv⟩
  cases nav <;> cases fu <;> cases fp <;> cases cl <;> cases race <;> cases sv <;>
    rcases err with _ | l <;> simp_all [perform_login]

/-- C7 (confirmed): when zero message elements render on every pass and at
least 4 consecutive passes are observed, the scrape loop terminates by its own
bounded counters with an empty collected-message list, and the task completes
with a `scrape_result` whose messages are empty and with no `error` event. -/
theorem empty_passes_soft_termination (inp : ScrapeInput)
    (hpage : inp.pageOk = true)
    (hlogin : (perform_login inp.login).2 = Except.ok ())
    (hnav : inp.navOk = true) (hhw : inp.headerWaitOk = true)
    (hcw : inp.containerWaitOk = true)
    (hemp : ∀ p ∈ inp.passes, p.elements = [])
    (hlen : 4 ≤ inp.passes.length) :
    (scrapeLoop inp.cutoff (inp.depth == "3months") inp.passes initialScrapeState).terminated
        = true ∧
    (scrapeLoop inp.cutoff (inp.depth == "3months") inp.passes initialScrapeState).final.messages
        = [] ∧
    (scrape_messages_task inp).ok = true ∧
    (∃ ch, (scrape_messages_task inp).result = some (ch, [])) ∧
    (scrape_messages_task inp).events.count EventKind.error = 0 := by
  obtain ⟨g1, g2⟩ := scrapeLoop_allEmpty inp.cutoff (inp.depth == "3months") inp.passes
    initialScrapeState hemp (by simp [initialScrapeState])
  have hterm : (scrapeLoop inp.cutoff (inp.depth == "3months") inp.passes
      initialScrapeState).terminated = true := g2 (by simpa [initialScrapeState] using hlen)
  have hmsgs : (scrapeLoop inp.cutoff (inp.depth == "3months") inp.passes
      initialScrapeState).final.messages = [] := by simpa [initialScrapeState] using g1
  have htask : scrape_messages_task inp =
      ⟨[EventKind.dev, EventKind.dev, EventKind.dev] ++ (perform_login inp.login).1 ++
        [EventKind.info, EventKind.success, EventKind.info] ++
        (scrapeLoop inp.cutoff (inp.depth == "3months") inp.passes initialScrapeState).events ++
        [EventKind.success, EventKind.scrape_result] ++ cleanupEvents inp.closeFails,
       some (pyStrip (match inp.headerText with | some t => t | none => "Unknown Channel"),
         (scrapeLoop inp.cutoff (inp.depth == "3months") inp.passes
           initialScrapeState).final.messages), true⟩ := by
    rw [scrape_messages_task, hpage]
    simp only [Bool.not_true, Bool.false_eq_true, if_false]
    rw [hlogin]
    rw [hnav, hhw, hcw]
    simp
  refine ⟨hterm, hmsgs, ?_, ?_, ?_⟩
  · rw [htask]
  · rw [htask]
    exact ⟨_, by rw [hmsgs]⟩
  · rw [htask]
    have hlev := perform_login_ok_events inp.login hlogin
    rw [hlev]
    have hloop := scrapeLoop_events_count inp.cutoff (inp.depth == "3months") EventKind.error
      (by decide) (by decide) (by decide) inp.passes initialScrapeState
    have hfin := cleanupEvents_count inp.closeFails EventKind.error (by decide)
    simp [List.count_append, hloop, hfin]

/-- Witness for C7 on four all-empty passes. -/
theorem empty_passes_soft_termination_witness :
    (scrape_messages_task ⟨true, ⟨true, true, true, true, true, none, true⟩, true, true,
      some "room", true, [⟨[], 0, 0⟩, ⟨[], 0, 0⟩, ⟨[], 0, 0⟩, ⟨[], 0, 0⟩],
      "3months", ⟨2025, 1, 1, 0, 0⟩, false⟩).ok = true :=
  (empty_passes_soft_termination
    ⟨true, ⟨true, true, true, true, true, none, true⟩, true, true,
      some "room", true, [⟨[], 0, 0⟩, ⟨[], 0, 0⟩, ⟨[], 0, 0⟩, ⟨[], 0, 0⟩],
      "3months", ⟨2025, 1, 1, 0, 0⟩, false⟩
    rfl rfl rfl rfl rfl (by decide) (by decide)).2.2.1

/-- C10 (corrected): a missing sender sub-element falls back to
"Unknown Sender" and the message is still emitted, and a room-title header
that is absent at query time (after the wait for it succeeded) falls back to
channel name "Unknown Channel" with the scrape proceeding; but when the header
never becomes visible within the bounded wait, the scrape ABORTS with an error
instead of proceeding, so header absence can fail the scrape. -/
theorem optional_fields_amended :
    (∀ (e : MsgElement) (i : String), e.sender = none →
       (extractMessage e i).1.sender = "Unknown Sender") ∧
    (∀ (c : DateTime) (d3 : Bool) (e : MsgElement) (i : String) (rest : List MsgElement)
        (st : ScrapeState) (found : Nat),
       e.id = some i → i ≠ "" → i ∉ st.seen → e.extractFails = false →
       ∃ ms, (processElements c d3 (e :: rest) st found).st.messages
           = st.messages ++ (extractMessage e i).1 :: ms) ∧
    (∀ inp : ScrapeInput, inp.pageOk = true → (perform_login inp.login).2 = Except.ok () →
       inp.navOk = true → inp.headerWaitOk = true → inp.headerText = none →
       inp.containerWaitOk = true →
       (scrape_messages_task inp).ok = true ∧
       (scrape_messages_task inp).result = some ("Unknown Channel",
         (scrapeLoop inp.cutoff (inp.depth == "3months") inp.passes
           initialScrapeState).final.messages)) ∧
    (∀ inp : ScrapeInput, inp.pageOk = true → (perform_login inp.login).2 = Except.ok () →
       inp.navOk = true → inp.headerWaitOk = false →
       (scrape_messages_task inp).ok = false ∧ (scrape_messages_task inp).result = none) := by
  refine ⟨?_, ?_, ?_, ?_⟩
  · intro e i hs
    simp [extractMessage, hs]
  · intro c d3 e i rest st found hid hne hmem hfail
    by_cases hstop : stopAfter c d3 (extractMessage e i).1 = true
    · rw [processElements_cons_stop c d3 rest st found hid hne hmem hfail hstop]
      exact ⟨[], by simp⟩
    · have hstop' : stopAfter c d3 (extractMessage e i).1 = false := by simpa using hstop
      rw [processElements_cons_keep c d3 rest st found hid hne hmem hfail hstop']
      obtain ⟨suf, h1, _⟩ := processElements_spec c d3 rest
        { st with seen := i :: st.seen,
                  messages := st.messages ++ [(extractMessage e i).1] } (found + 1)
      exact ⟨suf, by simpa using h1⟩
  · intro inp hpage hlogin hnav hhw hht hcw
    have htask : scrape_messages_task inp =
        ⟨[EventKind.dev, EventKind.dev, EventKind.dev] ++ (perform_login inp.login).1 ++
          [EventKind.info, EventKind.success, EventKind.info] ++
          (scrapeLoop inp.cutoff (inp.depth == "3months") inp.passes initialScrapeState).events ++
          [EventKind.success, EventKind.scrape_result] ++ cleanupEvents inp.closeFails,
         some (pyStrip "Unknown Channel",
           (scrapeLoop inp.cutoff (inp.depth == "3months") inp.passes
             initialScrapeState).final.messages), true⟩ := by
      rw [scrape_messages_task, hpage]
      simp only [Bool.not_true, Bool.false_eq_true, if_false]
      rw [hlogin]
      rw [hnav, hhw, hcw, hht]
      simp
    rw [htask]
    have : pyStrip "Unknown Channel" = "Unknown Channel" := by decide
    rw [this]
    exact ⟨rfl, rfl⟩
  · intro inp hpage hlogin hnav hhw
    have htask : scrape_messages_task inp =
        ⟨[EventKind.dev, EventKind.dev, EventKind.dev] ++ (perform_login inp.login).1 ++
          [EventKind.info, EventKind.error] ++ cleanupEvents inp.closeFails,
         none, false⟩ := by
      rw [scrape_messages_task, hpage]
      simp only [Bool.not_true, Bool.false_eq_true, if_false]
      rw [hlogin]
      rw [hnav, hhw]
      simp
    rw [htask]
    exact ⟨rfl, rfl⟩

/-- C10 counterexample to the claim as stated: with the room-title header
never appearing (the bounded wait times out), the scrape fails and emits no
result, contradicting "absence of optional display fields never causes a
message or scrape to fail". -/
theorem header_missing_counterexample :
    (scrape_messages_task ⟨true, ⟨true, true, true, true, true, none, true⟩, true, false, none,
        true, [], "all", ⟨2025, 1, 1, 0, 0⟩, false⟩).result = none ∧
    (scrape_messages_task ⟨true, ⟨true, true, true, true, true, none, true⟩, true, false, none,
        true, [], "all", ⟨2025, 1, 1, 0, 0⟩, false⟩).ok = false := by decide

/-- Witness for the amended C10: the sender fallback value. -/
theorem optional_fields_amended_witness :
    (extractMessage ⟨some "m1", none, some "hi", none, false⟩ "m1").1.sender
      = "Unknown Sender" :=
  optional_fields_amended.1 ⟨some "m1", none, some "hi", none, false⟩ "m1" rfl

/-- Lists ending in a given event have that event as their last element. -/
theorem lastOfEnds (l l2 : List EventKind) (b : EventKind) (h : l = l2 ++ [b]) :
    l.getLast? = some b := by
  subst h
  simp [List.getLast?_append]

/-- Event-trace shape of `login_and_enumerate_task`: a prefix containing no
`end_stream` (and ending in `error` whenever the body failed), then the single
`end_stream`, then the cleanup events of the `finally` block (none when no
page was created). -/
theorem login_and_enumerate_task_shape (inp : EnumInput) :
    ∃ X, X.count EventKind.end_stream = 0 ∧
      ((login_and_enumerate_task inp).ok = false → ∃ Y, X = Y ++ [EventKind.error]) ∧
      (login_and_enumerate_task inp).events
        = X ++ [EventKind.end_stream]
            ++ (if inp.pageOk = true then cleanupEvents inp.closeFails else []) := by
  have hlevC : (perform_login inp.login).1.count EventKind.end_stream = 0 :=
    perform_login_events_count inp.login EventKind.end_stream
      (by decide) (by decide) (by decide) (by decide)
  cases hpage : inp.pageOk with
  | false =>
    have ht : login_and_enumerate_task inp =
        ⟨[.dev, .error, .error, .end_stream], none, false⟩ := by
      rw [login_and_enumerate_task, hpage]
      simp
    refine ⟨[.dev, .error, .error], by decide, fun _ => ⟨[.dev, .error], by decide⟩, ?_⟩
    rw [ht]
    simp
  | true =>
    cases hl : (perform_login inp.login).2 with
    | error e =>
      have ht : login_and_enumerate_task inp =
          ⟨[EventKind.dev, EventKind.dev, EventKind.dev] ++ (perform_login inp.login).1 ++
            [EventKind.error, EventKind.end_stream] ++ cleanupEvents inp.closeFails,
           none, false⟩ := by
        rw [login_and_enumerate_task, hpage]
        simp only [Bool.not_true, Bool.false_eq_true, if_false]
        rw [hl]
      refine ⟨[EventKind.dev, EventKind.dev, EventKind.dev] ++ (perform_login inp.login).1 ++
        [EventKind.error], ?_, ?_, ?_⟩
      · simp [List.count_append, hlevC]
      · exact fun _ =>
          ⟨[EventKind.dev, EventKind.dev, EventKind.dev] ++ (perform_login inp.login).1, rfl⟩
      · rw [ht]
        simp
    | ok u =>
      have hlev := perform_login_ok_events inp.login (by rw [hl])
      cases hcw : inp.chanWaitOk with
      | false =>
        have ht : login_and_enumerate_task inp =
            ⟨[EventKind.dev, EventKind.dev, EventKind.dev] ++ (perform_login inp.login).1 ++
              [EventKind.info, EventKind.error, EventKind.end_stream] ++
              cleanupEvents inp.closeFails, none, false⟩ := by
          rw [login_and_enumerate_task, hpage]
          simp only [Bool.not_true, Bool.false_eq_true, if_false]
          rw [hl, hcw]
          simp
        refine ⟨[EventKind.dev, EventKind.dev, EventKind.dev] ++ (perform_login inp.login).1 ++
          [EventKind.info, EventKind.error], ?_, ?_, ?_⟩
        · simp [List.count_append, hlevC]
        · exact fun _ =>
            ⟨[EventKind.dev, EventKind.dev, EventKind.dev] ++ (perform_login inp.login).1 ++
              [EventKind.info], by simp⟩
        · rw [ht]
          simp
      | true =>
        by_cases hit : inp.items.isEmpty
        · have ht : login_and_enumerate_task inp =
              ⟨[EventKind.dev, EventKind.dev, EventKind.dev] ++ (perform_login inp.login).1 ++
                [EventKind.info, EventKind.error, EventKind.warn, EventKind.end_stream] ++
                cleanupEvents inp.closeFails, none, true⟩ := by
            rw [login_and_enumerate_task, hpage]
            simp only [Bool.not_true, Bool.false_eq_true, if_false]
            rw [hl, hcw, hit]
            simp
          refine ⟨[EventKind.dev, EventKind.dev, EventKind.dev] ++ (perform_login inp.login).1 ++
            [EventKind.info, EventKind.error, EventKind.warn], ?_, ?_, ?_⟩
          · simp [List.count_append, hlevC]
          · intro h
            rw [ht] at h
            simp at h
          · rw [ht]
            simp
        · have hit' : inp.items.isEmpty = false := by simpa using hit
          by_cases hcs : (enumerate_channels (baseUrlOf inp.pageUrl inp.url) inp.items).1.isEmpty
          · have ht : login_and_enumerate_task inp =
                ⟨[EventKind.dev, EventKind.dev, EventKind.dev] ++ (perform_login inp.login).1 ++
                  [EventKind.info, EventKind.dev] ++
                  (enumerate_channels (baseUrlOf inp.pageUrl inp.url) inp.items).2 ++
                  [EventKind.warn, EventKind.end_stream] ++ cleanupEvents inp.closeFails,
                 none, true⟩ := by
              rw [login_and_enumerate_task, hpage]
              simp only [Bool.not_true, Bool.false_eq_true, if_false]
              rw [hl, hcw, hit', hcs]
              simp
            have hec := enumerate_channels_events_count (baseUrlOf inp.pageUrl inp.url)
              EventKind.end_stream (by decide) (by decide) inp.items
            refine ⟨[EventKind.dev, EventKind.dev, EventKind.dev] ++
              (perform_login inp.login).1 ++ [EventKind.info, EventKind.dev] ++
              (enumerate_channels (baseUrlOf inp.pageUrl inp.url) inp.items).2 ++
              [EventKind.warn], ?_, ?_, ?_⟩
            · simp [List.count_append, hlevC, hec]
            · intro h
              rw [ht] at h
              simp at h
            · rw [ht]
              simp
          · have hcs' :
                (enumerate_channels (baseUrlOf inp.pageUrl inp.url) inp.items).1.isEmpty
                  = false := by simpa using hcs
            have ht : login_and_enumerate_task inp =
                ⟨[EventKind.dev, EventKind.dev, EventKind.dev] ++ (perform_login inp.login).1 ++
                  [EventKind.info, EventKind.dev] ++
                  (enumerate_channels (baseUrlOf inp.pageUrl inp.url) inp.items).2 ++
                  [EventKind.info, EventKind.channels, EventKind.end_stream] ++
                  cleanupEvents inp.closeFails,
                 some (enumerate_channels (baseUrlOf inp.pageUrl inp.url) inp.items).1,
                 true⟩ := by
              rw [login_and_enumerate_task, hpage]
              simp only [Bool.not_true, Bool.false_eq_true, if_false]
              rw [hl, hcw, hit', hcs']
              simp
            have hec := enumerate_channels_events_count (baseUrlOf inp.pageUrl inp.url)
              EventKind.end_stream (by decide) (by decide) inp.items
            refine ⟨[EventKind.dev, EventKind.dev, EventKind.dev] ++
              (perform_login inp.login).1 ++ [EventKind.info, EventKind.dev] ++
              (enumerate_channels (baseUrlOf inp.pageUrl inp.url) inp.items).2 ++
              [EventKind.info, EventKind.channels], ?_, ?_, ?_⟩
            · simp [List.count_append, hlevC, hec]
            · intro h
              rw [ht] at h
              simp at h
            · rw [ht]
              simp

/-- Event-trace shape of `scrape_messages_task`: a prefix containing no
`end_stream` (and ending in `error` whenever the body failed), then the
cleanup events of the `finally` block (none when no page was created) — and
no `end_stream` anywhere. -/
theorem scrape_messages_task_shape (inp : ScrapeInput) :
    ∃ X, X.count EventKind.end_stream = 0 ∧
      ((scrape_messages_task inp).ok = false → ∃ Y, X = Y ++ [EventKind.error]) ∧
      (scrape_messages_task inp).events
        = X ++ (if inp.pageOk = true then cleanupEvents inp.closeFails else []) := by
  have hlevC : (perform_login inp.login).1.count EventKind.end_stream = 0 :=
    perform_login_events_count inp.login EventKind.end_stream
      (by decide) (by decide) (by decide) (by decide)
  cases hpage : inp.pageOk with
  | false =>
    have ht : scrape_messages_task inp = ⟨[.dev, .error, .error], none, false⟩ := by
      rw [scrape_messages_task, hpage]
      simp
    refine ⟨[.dev, .error, .error], by decide, fun _ => ⟨[.dev, .error], by decide⟩, ?_⟩
    rw [ht]
    simp
  | true =>
    cases hl : (perform_login inp.login).2 with
    | error e =>
      have ht : scrape_messages_task inp =
          ⟨[EventKind.dev, EventKind.dev, EventKind.dev] ++ (perform_login inp.login).1 ++
            [EventKind.error] ++ cleanupEvents inp.closeFails, none, false⟩ := by
        rw [scrape_messages_task, hpage]
        simp only [Bool.not_true, Bool.false_eq_true, if_false]
        rw [hl]
      refine ⟨[EventKind.dev, EventKind.dev, EventKind.dev] ++ (perform_login inp.login).1 ++
        [EventKind.error], ?_, ?_, ?_⟩
      · simp [List.count_append, hlevC]
      · exact fun _ =>
          ⟨[EventKind.dev, EventKind.dev, EventKind.dev] ++ (perform_login inp.login).1, rfl⟩
      · rw [ht]
        simp
    | ok u =>
      have hlev := perform_login_ok_events inp.login (by rw [hl])
      cases hnav : inp.navOk with
      | false =>
        have ht : scrape_messages_task inp =
            ⟨[EventKind.dev, EventKind.dev, EventKind.dev] ++ (perform_login inp.login).1 ++
              [EventKind.info, EventKind.error] ++ cleanupEvents inp.closeFails,
             none, false⟩ := by
          rw [scrape_messages_task, hpage]
          simp only [Bool.not_true, Bool.false_eq_true, if_false]
          rw [hl, hnav]
          simp
        refine ⟨[EventKind.dev, EventKind.dev, EventKind.dev] ++ (perform_login inp.login).1 ++
          [EventKind.info, EventKind.error], ?_, ?_, ?_⟩
        · simp [List.count_append, hlevC]
        · exact fun _ =>
            ⟨[EventKind.dev, EventKind.dev, EventKind.dev] ++ (perform_login inp.login).1 ++
              [EventKind.info], by simp⟩
        · rw [ht]
          simp
      | true =>
        cases hhw : inp.headerWaitOk with
        | false =>
          have ht : scrape_messages_task inp =
              ⟨[EventKind.dev, EventKind.dev, EventKind.dev] ++ (perform_login inp.login).1 ++
                [EventKind.info, EventKind.error] ++ cleanupEvents inp.closeFails,
               none, false⟩ := by
            rw [scrape_messages_task, hpage]
            simp only [Bool.not_true, Bool.false_eq_true, if_false]
            rw [hl, hnav, hhw]
            simp
          refine ⟨[EventKind.dev, EventKind.dev, EventKind.dev] ++
            (perform_login inp.login).1 ++ [EventKind.info, EventKind.error], ?_, ?_, ?_⟩
          · simp [List.count_append, hlevC]
          · exact fun _ =>
              ⟨[EventKind.dev, EventKind.dev, EventKind.dev] ++ (perform_login inp.login).1 ++
                [EventKind.info], by simp⟩
          · rw [ht]
            simp
        | true =>
          cases hcw : inp.containerWaitOk with
          | false =>
            have ht : scrape_messages_task inp =
                ⟨[EventKind.dev, EventKind.dev, EventKind.dev] ++
                  (perform_login inp.login).1 ++
                  [EventKind.info, EventKind.success, EventKind.info, EventKind.error] ++
                  cleanupEvents inp.closeFails, none, false⟩ := by
              rw [scrape_messages_task, hpage]
              simp only [Bool.not_true, Bool.false_eq_true, if_false]
              rw [hl, hnav, hhw, hcw]
              simp
            refine ⟨[EventKind.dev, EventKind.dev, EventKind.dev] ++
              (perform_login inp.login).1 ++
              [EventKind.info, EventKind.success, EventKind.info, EventKind.error],
              ?_, ?_, ?_⟩
            · simp [List.count_append, hlevC]
            · exact fun _ =>
                ⟨[EventKind.dev, EventKind.dev, EventKind.dev] ++
                  (perform_login inp.login).1 ++
                  [EventKind.info, EventKind.success, EventKind.info], by simp⟩
            · rw [ht]
              simp
          | true =>
            have ht : scrape_messages_task inp =
                ⟨[EventKind.dev, EventKind.dev, EventKind.dev] ++
                  (perform_login inp.login).1 ++
                  [EventKind.info, EventKind.success, EventKind.info] ++
                  (scrapeLoop inp.cutoff (inp.depth == "3months") inp.passes
                    initialScrapeState).events ++
                  [EventKind.success, EventKind.scrape_result] ++
                  cleanupEvents inp.closeFails,
                 some (pyStrip (match inp.headerText with
                   | some t => t
                   | none => "Unknown Channel"),
                   (scrapeLoop inp.cutoff (inp.depth == "3months") inp.passes
                     initialScrapeState).final.messages), true⟩ := by
              rw [scrape_messages_task, hpage]
              simp only [Bool.not_true, Bool.false_eq_true, if_false]
              rw [hl, hnav, hhw, hcw]
              simp
            have hloop := scrapeLoop_events_count inp.cutoff (inp.depth == "3months")
              EventKind.end_stream (by decide) (by decide) (by decide) inp.passes
              initialScrapeState
            refine ⟨[EventKind.dev, EventKind.dev, EventKind.dev] ++
              (perform_login inp.login).1 ++
              [EventKind.info, EventKind.success, EventKind.info] ++
              (scrapeLoop inp.cutoff (inp.depth == "3months") inp.passes
                initialScrapeState).events ++
              [EventKind.success, EventKind.scrape_result], ?_, ?_, ?_⟩
            · simp [List.count_append, hlevC, hloop]
            · intro h
              rw [ht] at h
              simp at h
            · rw [ht]
              simp

/-- C3 (corrected): `login_and_enumerate_task` emits exactly one `end_stream`
on every path; it is the final event whenever the guaranteed-cleanup context
close does not fail, its fatal paths place `error` directly before it, and a
failing cleanup close appends a single trailing `warn` after it.
`scrape_messages_task` NEVER emits `end_stream` on any path (its comments
defer that to the caller), and its fatal paths end with an `error` event
followed only by the cleanup events of the `finally` block. -/
theorem end_stream_amended :
    (∀ inp : EnumInput,
       (login_and_enumerate_task inp).events.count EventKind.end_stream = 1 ∧
       (inp.closeFails = false →
         (login_and_enumerate_task inp).events.getLast? = some EventKind.end_stream) ∧
       ((login_and_enumerate_task inp).ok = false → ∃ pre,
         (login_and_enumerate_task inp).events
           = pre ++ [EventKind.error, EventKind.end_stream]
               ++ (if inp.pageOk = true then cleanupEvents inp.closeFails else [])) ∧
       (inp.pageOk = true → inp.closeFails = true → ∃ pre,
         (login_and_enumerate_task inp).events
           = pre ++ [EventKind.end_stream, EventKind.warn])) ∧
    (∀ inp : ScrapeInput,
       (scrape_messages_task inp).events.count EventKind.end_stream = 0 ∧
       ((scrape_messages_task inp).ok = false → ∃ pre,
         (scrape_messages_task inp).events
           = pre ++ [EventKind.error]
               ++ (if inp.pageOk = true then cleanupEvents inp.closeFails else []))) := by
  constructor
  · intro inp
    obtain ⟨X, hX0, hXe, hXev⟩ := login_and_enumerate_task_shape inp
    refine ⟨?_, ?_, ?_, ?_⟩
    · rw [hXev]
      have hsfx : (if inp.pageOk = true then cleanupEvents inp.closeFails else []).count
          EventKind.end_stream = 0 := by
        cases inp.pageOk <;> cases inp.closeFails <;> simp [cleanupEvents]
      simp [List.count_append, hX0, hsfx]
    · intro hcf
      rw [hXev]
      have hsfx : (if inp.pageOk = true then cleanupEvents inp.closeFails else []) = [] := by
        cases inp.pageOk <;> simp [hcf, cleanupEvents]
      rw [hsfx]
      exact lastOfEnds _ X _ (by simp)
    · intro hok
      obtain ⟨Y, hY⟩ := hXe hok
      refine ⟨Y, ?_⟩
      rw [hXev, hY]
      simp
    · intro hpg hcf
      refine ⟨X, ?_⟩
      rw [hXev, hpg, hcf]
      simp [cleanupEvents]
  · intro inp
    obtain ⟨X, hX0, hXe, hXev⟩ := scrape_messages_task_shape inp
    refine ⟨?_, ?_⟩
    · rw [hXev]
      have hsfx : (if inp.pageOk = true then cleanupEvents inp.closeFails else []).count
          EventKind.end_stream = 0 := by
        cases inp.pageOk <;> cases inp.closeFails <;> simp [cleanupEvents]
      simp [List.count_append, hX0, hsfx]
    · intro hok
      obtain ⟨Y, hY⟩ := hXe hok
      refine ⟨Y, ?_⟩
      rw [hXev, hY]

/-- C3 counterexample to the claim as stated: a scrape task whose channel
navigation fails ends its event sequence with `error` and emits no
`end_stream` at all, contradicting "every task's event sequence ends with
exactly one end_stream". -/
theorem end_stream_claim_counterexample :
    (scrape_messages_task ⟨true, ⟨true, true, true, true, true, none, true⟩, false, true, none,
        true, [], "all", ⟨2025, 1, 1, 0, 0⟩, false⟩).events.getLast?
      = some EventKind.error ∧
    (scrape_messages_task ⟨true, ⟨true, true, true, true, true, none, true⟩, false, true, none,
        true, [], "all", ⟨2025, 1, 1, 0, 0⟩, false⟩).events.count EventKind.end_stream = 0 := by
  decide

/-- Witness for the amended C3 on a failing scrape input. -/
theorem end_stream_amended_witness :
    (scrape_messages_task ⟨false, ⟨true, true, true, true, true, none, true⟩, true, true, none,
        true, [], "all", ⟨2025, 1, 1, 0, 0⟩, true⟩).events.count EventKind.end_stream = 0 :=
  (end_stream_amended.2 ⟨false, ⟨true, true, true, true, true, none, true⟩, true, true, none,
        true, [], "all", ⟨2025, 1, 1, 0, 0⟩, true⟩).1
